import Mathlib

/-!
Verification of the data-schema builder and unchecked-to-checked conversion
pipeline of the wot-td crate (file src/builder/data_schema.rs).

Shallow embedding conventions:

* Rust f64 values are modelled by `F64`: either NaN or a rational value. The
  source never performs float arithmetic on schema bounds; it only compares
  them (a partial order in which NaN is incomparable) and tests for NaN, so
  this model captures exactly the behaviour exercised by the code.
* Rust i64/u32 are modelled by Int/Nat: the source only compares these values,
  so overflow behaviour is irrelevant. NonZeroU64 is modelled by PNat.
* serde_json::Value is an opaque payload for this module; it is modelled by a
  small inhabited type with decidable equality.
* The generic extension payloads (type parameters DS/AS/OS and the `other`
  fields) are opaque to every function verified here; they are instantiated at
  the trivial (unit-like) extension and therefore omitted from the records.
* Types and functions that live in crate::thing or crate::builder (outside the
  provided sources) are modelled from the specification; each such definition
  carries a doc comment starting with "Modelled from the spec:".
-/

/-- Modelled from the spec: serde_json::Value, an arbitrary structured JSON
value. The code under verification never inspects these values, it only
stores and moves them, so a small representative type suffices. -/
inductive Value : Type where
  | null
  | bool (b : Bool)
  | num (n : Int)
  | str (s : String)
deriving DecidableEq, Repr

/-- Rust f64 restricted to the operations the schema code performs: NaN tests
and partial-order comparisons. Infinite values behave like ordinary ordered
values in those operations, hence a rational payload is a faithful carrier. -/
inductive F64 : Type where
  | nan
  | val (x : Rat)
deriving DecidableEq, Repr

/-- Embedding of f64::is_nan. -/
def F64.is_nan : F64 → Bool
  | .nan => true
  | .val _ => false

/-- Embedding of the IEEE-754 partial comparison on f64 (PartialOrd::partial_cmp):
NaN is incomparable with everything, other values are totally ordered. -/
def F64.pcmp : F64 → F64 → Option Ordering
  | .nan, _ => none
  | _, .nan => none
  | .val x, .val y => some (compare x y)

/-- Embedding of the f64 comparison operator x <= y (false whenever either
side is NaN). -/
def F64.fle : F64 → F64 → Bool
  | .nan, _ => false
  | _, .nan => false
  | .val x, .val y => decide (x ≤ y)

/-- Modelled from the spec: the Minimum bound tag of crate::thing, an
inclusive-or-exclusive lower bound. -/
inductive Minimum (α : Type) : Type where
  | inclusive (x : α)
  | exclusive (x : α)
deriving DecidableEq, Repr

/-- Modelled from the spec: the Maximum bound tag of crate::thing, an
inclusive-or-exclusive upper bound. -/
inductive Maximum (α : Type) : Type where
  | inclusive (x : α)
  | exclusive (x : α)
deriving DecidableEq, Repr

/-- The raw value carried by a Minimum bound. -/
def Minimum.value {α : Type} : Minimum α → α
  | .inclusive x => x
  | .exclusive x => x

/-- The raw value carried by a Maximum bound. -/
def Maximum.value {α : Type} : Maximum α → α
  | .inclusive x => x
  | .exclusive x => x

/-- True when the bound is exclusive. -/
def Minimum.isExclusive {α : Type} : Minimum α → Bool
  | .inclusive _ => false
  | .exclusive _ => true

/-- True when the bound is exclusive. -/
def Maximum.isExclusive {α : Type} : Maximum α → Bool
  | .inclusive _ => false
  | .exclusive _ => true

/-- Modelled from the spec: Minimum::is_nan of crate::thing, true when the
floating-point bound value is NaN. -/
def Minimum.is_nan : Minimum F64 → Bool
  | m => m.value.is_nan

/-- Modelled from the spec: Maximum::is_nan of crate::thing. -/
def Maximum.is_nan : Maximum F64 → Bool
  | m => m.value.is_nan

/-- Modelled from the spec: PartialOrd<Maximum> for Minimum in crate::thing.
The bound values are compared under the partial order of the carrier; when the
two values are equal but either end is exclusive the range is empty at the
boundary, which the spec mandates to count as minimum greater than maximum
(a Number node with minimum = Exclusive(2) and maximum = Inclusive(2) must
fail validation with InvalidMinMax). -/
def minMaxPcmp {α : Type} (vcmp : α → α → Option Ordering)
    (min : Minimum α) (max : Maximum α) : Option Ordering :=
  match vcmp min.value max.value with
  | some .eq =>
    if min.isExclusive || max.isExclusive then some .gt else some .eq
  | o => o

/-- Total comparison on Int wrapped in Option, the shape PartialOrd takes on
a totally ordered carrier such as i64. -/
def intPcmp (x y : Int) : Option Ordering := some (compare x y)

/-- Total comparison on Nat wrapped in Option (u32 item counts). -/
def natPcmp (x y : Nat) : Option Ordering := some (compare x y)

/-- Modelled from the spec: the builder error type of crate::builder,
restricted to the kinds produced by the data-schema validation pass and
checked conversion (spec section 7). -/
inductive Error : Type where
  | invalidMinMax
  | nanMinMax
  | invalidMultipleOf
  | invalidLanguageTag (tag : String)
deriving DecidableEq, Repr

/-- Embedding of crate::thing::NumberSchema. -/
structure NumberSchema : Type where
  minimum : Option (Minimum F64)
  maximum : Option (Maximum F64)
  multiple_of : Option F64
deriving DecidableEq, Repr

/-- Embedding of crate::thing::IntegerSchema. -/
structure IntegerSchema : Type where
  minimum : Option (Minimum Int)
  maximum : Option (Maximum Int)
  multiple_of : Option PNat
deriving DecidableEq, Repr

/-- Embedding of crate::thing::StringSchema. -/
structure StringSchema : Type where
  min_length : Option Nat
  max_length : Option Nat
  pattern : Option String
  content_encoding : Option String
  content_media_type : Option String
deriving DecidableEq, Repr

/-- Modelled from the spec: the external multi-language string map builder.
It accumulates (language-tag key, text) pairs; building it can fail when a
key is not a well-formed language tag. The well-formedness test itself is an
external capability, so it is passed in as a parameter wherever it is used. -/
structure MultiLanguageBuilder : Type where
  values : List (String × String)
deriving DecidableEq, Repr

/-- Embedding of crate::thing::BoxedElemOrVec: either one boxed element or a
vector of elements (the two array-item shapes). -/
inductive BoxedElemOrVec (α : Type) : Type where
  | elem (a : α)
  | vec (l : List α)
deriving DecidableEq, Repr

mutual

/-- Embedding of UncheckedDataSchema (src/builder/data_schema.rs, lines
66-83), with the extension payload field `other` omitted (opaque unit). -/
inductive UncheckedDataSchema : Type where
  | mk
    (attype : Option (List String))
    (title : Option String)
    (titles : Option MultiLanguageBuilder)
    (description : Option String)
    (descriptions : Option MultiLanguageBuilder)
    (constant : Option Value)
    (default : Option Value)
    (unit : Option String)
    (one_of : Option (List UncheckedDataSchema))
    (enumeration : Option (List Value))
    (read_only : Bool)
    (write_only : Bool)
    (format : Option String)
    (subtype : Option UncheckedDataSchemaSubtype)
    : UncheckedDataSchema

/-- Embedding of crate::thing::UncheckedDataSchemaSubtype, the tagged union of
subtype-specific payloads. -/
inductive UncheckedDataSchemaSubtype : Type where
  | array (a : UncheckedArraySchema)
  | boolean
  | number (n : NumberSchema)
  | integer (i : IntegerSchema)
  | object (o : UncheckedObjectSchema)
  | string (s : StringSchema)
  | null

/-- Embedding of crate::thing::UncheckedArraySchema (extension payload
omitted). -/
inductive UncheckedArraySchema : Type where
  | mk
    (items : Option (BoxedElemOrVec UncheckedDataSchema))
    (min_items : Option Nat)
    (max_items : Option Nat)
    : UncheckedArraySchema

/-- Embedding of crate::thing::UncheckedObjectSchema (extension payload
omitted). Modelled from the spec: the property container is an ordered
name-to-schema map (spec section 3), represented as an association list with
unique keys maintained by `collectMap`. -/
inductive UncheckedObjectSchema : Type where
  | mk
    (properties : Option (List (String × UncheckedDataSchema)))
    (required : Option (List String))
    : UncheckedObjectSchema

end

def UncheckedDataSchema.subtype : UncheckedDataSchema → Option UncheckedDataSchemaSubtype
  | .mk _ _ _ _ _ _ _ _ _ _ _ _ _ st => st

def UncheckedDataSchema.one_of : UncheckedDataSchema → Option (List UncheckedDataSchema)
  | .mk _ _ _ _ _ _ _ _ oo _ _ _ _ _ => oo

def UncheckedDataSchema.read_only : UncheckedDataSchema → Bool
  | .mk _ _ _ _ _ _ _ _ _ _ ro _ _ _ => ro

def UncheckedDataSchema.write_only : UncheckedDataSchema → Bool
  | .mk _ _ _ _ _ _ _ _ _ _ _ wo _ _ => wo

def UncheckedDataSchema.constant : UncheckedDataSchema → Option Value
  | .mk _ _ _ _ _ c _ _ _ _ _ _ _ _ => c

def UncheckedDataSchema.enumeration : UncheckedDataSchema → Option (List Value)
  | .mk _ _ _ _ _ _ _ _ _ en _ _ _ _ => en

def UncheckedDataSchema.titles : UncheckedDataSchema → Option MultiLanguageBuilder
  | .mk _ _ ti _ _ _ _ _ _ _ _ _ _ _ => ti

def UncheckedDataSchema.descriptions : UncheckedDataSchema → Option MultiLanguageBuilder
  | .mk _ _ _ _ de _ _ _ _ _ _ _ _ _ => de

/-- Modelled from the spec: the built multi-language map (language tag to
text), the output of the external multi-language builder. -/
abbrev MultiLanguage : Type := List (String × String)

mutual

/-- Modelled from the spec: crate::thing::DataSchema, the checked immutable
schema. Per spec section 4.4 it structurally mirrors the unchecked tree
one-to-one, with the localized maps built and children converted
(extension payload omitted as in the unchecked embedding). -/
inductive DataSchema : Type where
  | mk
    (attype : Option (List String))
    (title : Option String)
    (titles : Option MultiLanguage)
    (description : Option String)
    (descriptions : Option MultiLanguage)
    (constant : Option Value)
    (default : Option Value)
    (unit : Option String)
    (one_of : Option (List DataSchema))
    (enumeration : Option (List Value))
    (read_only : Bool)
    (write_only : Bool)
    (format : Option String)
    (subtype : Option DataSchemaSubtype)
    : DataSchema

/-- Modelled from the spec: crate::thing::DataSchemaSubtype, the checked
subtype union. -/
inductive DataSchemaSubtype : Type where
  | array (a : ArraySchema)
  | boolean
  | number (n : NumberSchema)
  | integer (i : IntegerSchema)
  | object (o : ObjectSchema)
  | string (s : StringSchema)
  | null

/-- Modelled from the spec: crate::thing::ArraySchema, checked variant. -/
inductive ArraySchema : Type where
  | mk
    (items : Option (BoxedElemOrVec DataSchema))
    (min_items : Option Nat)
    (max_items : Option Nat)
    : ArraySchema

/-- Modelled from the spec: crate::thing::ObjectSchema, checked variant. -/
inductive ObjectSchema : Type where
  | mk
    (properties : Option (List (String × DataSchema)))
    (required : Option (List String))
    : ObjectSchema

end

/-- True when an Option Ordering comparison result is None or Some(Greater),
the failure pattern used by every min/max check in the validation pass. -/
def badCmp : Option Ordering → Bool
  | none => true
  | some .gt => true
  | some _ => false

/-- Embedding of the Number arm of check_data_schema_subtype
(src/builder/data_schema.rs lines 3846-3856): the NaN tests on the two bounds
come first, then the range comparison. -/
def numberChecks (n : NumberSchema) : Except Error Unit :=
  match n.minimum, n.maximum with
  | some x, mx =>
    if x.is_nan then .error .nanMinMax
    else
      match mx with
      | some y =>
        if y.is_nan then .error .nanMinMax
        else if badCmp (minMaxPcmp F64.pcmp x y) then .error .invalidMinMax
        else .ok ()
      | none => .ok ()
  | none, some y => if y.is_nan then .error .nanMinMax else .ok ()
  | none, none => .ok ()

/-- Embedding of the multiple_of arm of the Number checks (lines 3858-3863):
a present multiple_of that compares less-or-equal to zero fails. -/
def multipleOfCheck (n : NumberSchema) : Except Error Unit :=
  match n.multiple_of with
  | some m => if m.fle (F64.val 0) then .error .invalidMultipleOf else .ok ()
  | none => .ok ()

/-- Embedding of the Integer arm of check_data_schema_subtype (lines
3865-3872). -/
def integerChecks (i : IntegerSchema) : Except Error Unit :=
  match i.minimum, i.maximum with
  | some min, some max =>
    if badCmp (minMaxPcmp intPcmp min max) then .error .invalidMinMax else .ok ()
  | _, _ => .ok ()

/-- The item children an Array subtype pushes onto the traversal stack
(lines 3839-3844), in Vec::extend order. -/
def arrayChildren : Option (BoxedElemOrVec UncheckedDataSchema) → List UncheckedDataSchema
  | none => []
  | some (.elem item) => [item]
  | some (.vec items) => items

/-- The property children an Object subtype pushes onto the traversal stack
(lines 3873-3876): the values of the property map in map order. -/
def objectChildren : Option (List (String × UncheckedDataSchema)) → List UncheckedDataSchema
  | none => []
  | some props => props.map Prod.snd

/-- One iteration body of the check_data_schema_subtype loop restricted to the
current node's subtype (lines 3827-3879): performs the subtype's own numeric
checks and returns the children to push onto the explicit stack. -/
def subtypeStep : Option UncheckedDataSchemaSubtype → Except Error (List UncheckedDataSchema)
  | none => .ok []
  | some (.array (.mk items mi ma)) =>
    match mi, ma with
    | some min, some max =>
      if badCmp (natPcmp min max) then .error .invalidMinMax
      else .ok (arrayChildren items)
    | _, _ => .ok (arrayChildren items)
  | some (.number n) =>
    (numberChecks n).bind fun _ => (multipleOfCheck n).map fun _ => []
  | some (.integer i) => (integerChecks i).map fun _ => []
  | some (.object (.mk props _)) => .ok (objectChildren props)
  | some (.string _) => .ok []
  | some .boolean => .ok []
  | some .null => .ok []

/-- One Vec::extend on the explicit traversal stack. The Lean list head models
the Rust Vec top, so extending pushes the iterator's elements in order and
leaves its last element on top (LIFO pop order preserved). -/
def vecExtend (stack new : List UncheckedDataSchema) : List UncheckedDataSchema :=
  new.reverse ++ stack


mutual

/-- Structural size of an unchecked schema, the termination measure for the
recursive traversals (counts only schema-bearing positions). -/
def schemaSize : UncheckedDataSchema → Nat
  | .mk _ _ _ _ _ _ _ _ oo _ _ _ _ st => 1 + schemaListOptSize oo + subOptSize st

/-- Size of an optional list of schemas. -/
def schemaListOptSize : Option (List UncheckedDataSchema) → Nat
  | none => 0
  | some l => schemaListSize l

/-- Size of a list of schemas. -/
def schemaListSize : List UncheckedDataSchema → Nat
  | [] => 0
  | x :: xs => schemaSize x + schemaListSize xs

/-- Size of an optional subtype. -/
def subOptSize : Option UncheckedDataSchemaSubtype → Nat
  | none => 0
  | some st => subSize st

/-- Size of a subtype payload. -/
def subSize : UncheckedDataSchemaSubtype → Nat
  | .array (.mk items _ _) => 1 + itemsOptSize items
  | .object (.mk props _) => 1 + propsOptSize props
  | .boolean => 1
  | .number _ => 1
  | .integer _ => 1
  | .string _ => 1
  | .null => 1

/-- Size of the optional array-items payload. -/
def itemsOptSize : Option (BoxedElemOrVec UncheckedDataSchema) → Nat
  | none => 0
  | some (.elem a) => 1 + schemaSize a
  | some (.vec l) => 1 + schemaListSize l

/-- Size of the optional property map payload. -/
def propsOptSize : Option (List (String × UncheckedDataSchema)) → Nat
  | none => 0
  | some ps => propsSize ps

/-- Size of a property association list. -/
def propsSize : List (String × UncheckedDataSchema) → Nat
  | [] => 0
  | (_, v) :: rest => schemaSize v + propsSize rest

end

theorem schemaListSize_append (l₁ l₂ : List UncheckedDataSchema) :
    schemaListSize (l₁ ++ l₂) = schemaListSize l₁ + schemaListSize l₂ := by
  induction l₁ with
  | nil => simp [schemaListSize]
  | cons a l ih => simp [schemaListSize, ih]; omega

theorem schemaListSize_reverse (l : List UncheckedDataSchema) :
    schemaListSize l.reverse = schemaListSize l := by
  induction l with
  | nil => rfl
  | cons a l ih =>
    simp [List.reverse_cons, schemaListSize_append, schemaListSize, ih]
    omega

theorem schemaSize_pos (ds : UncheckedDataSchema) : 1 ≤ schemaSize ds := by
  cases ds
  simp [schemaSize]
  omega

theorem schemaSize_decompose (ds : UncheckedDataSchema) :
    schemaSize ds = 1 + schemaListOptSize ds.one_of + subOptSize ds.subtype := by
  cases ds
  simp [schemaSize, UncheckedDataSchema.one_of, UncheckedDataSchema.subtype]

theorem schemaListOptSize_getD (oo : Option (List UncheckedDataSchema)) :
    schemaListSize (oo.getD []) = schemaListOptSize oo := by
  cases oo <;> simp [schemaListOptSize, schemaListSize]

theorem arrayChildren_size (items : Option (BoxedElemOrVec UncheckedDataSchema)) :
    schemaListSize (arrayChildren items) ≤ itemsOptSize items := by
  match items with
  | none => simp [arrayChildren, itemsOptSize, schemaListSize]
  | some (.elem a) => simp [arrayChildren, itemsOptSize, schemaListSize]
  | some (.vec l) => simp [arrayChildren, itemsOptSize]

theorem objectChildren_size (props : Option (List (String × UncheckedDataSchema))) :
    schemaListSize (objectChildren props) ≤ propsOptSize props := by
  match props with
  | none => simp [objectChildren, propsOptSize, schemaListSize]
  | some ps =>
    simp [objectChildren, propsOptSize]
    induction ps with
    | nil => simp [schemaListSize, propsSize]
    | cons p rest ih =>
      cases p
      simp [schemaListSize, propsSize]
      omega

/-- The children extracted by a successful subtypeStep, as a pure function. -/
def stepChildren : Option UncheckedDataSchemaSubtype → List UncheckedDataSchema
  | none => []
  | some (.array (.mk items _ _)) => arrayChildren items
  | some (.object (.mk props _)) => objectChildren props
  | some (.number _) => []
  | some (.integer _) => []
  | some (.string _) => []
  | some .boolean => []
  | some .null => []

theorem stepChildren_size (st : Option UncheckedDataSchemaSubtype) :
    schemaListSize (stepChildren st) ≤ subOptSize st := by
  match st with
  | none => simp [stepChildren, subOptSize, schemaListSize]
  | some (.array (.mk items mi ma)) =>
    have := arrayChildren_size items
    simp [stepChildren, subOptSize, subSize]
    omega
  | some (.object (.mk props req)) =>
    have := objectChildren_size props
    simp [stepChildren, subOptSize, subSize]
    omega
  | some (.number _) => simp [stepChildren, subOptSize, subSize, schemaListSize]
  | some (.integer _) => simp [stepChildren, subOptSize, subSize, schemaListSize]
  | some (.string _) => simp [stepChildren, subOptSize, subSize, schemaListSize]
  | some .boolean => simp [stepChildren, subOptSize, subSize, schemaListSize]
  | some .null => simp [stepChildren, subOptSize, subSize, schemaListSize]

theorem subtypeStep_ok_children {st : Option UncheckedDataSchemaSubtype}
    {cs : List UncheckedDataSchema} (h : subtypeStep st = .ok cs) :
    cs = stepChildren st := by
  match st with
  | none => simp [subtypeStep] at h; simp [stepChildren, h.symm]
  | some (.array (.mk items mi ma)) =>
    match mi, ma with
    | some min, some max =>
      simp only [subtypeStep] at h
      split at h
      · exact absurd h (by simp)
      · simp at h; simp [stepChildren, h.symm]
    | some min, none => simp [subtypeStep] at h; simp [stepChildren, h.symm]
    | none, some max => simp [subtypeStep] at h; simp [stepChildren, h.symm]
    | none, none => simp [subtypeStep] at h; simp [stepChildren, h.symm]
  | some (.number n) =>
    cases hn : numberChecks n <;> cases hm : multipleOfCheck n <;>
      simp [subtypeStep, hn, hm, Except.bind, Except.map] at h <;>
      simp [stepChildren, h.symm]
  | some (.integer i) =>
    cases hi : integerChecks i <;> simp [subtypeStep, hi, Except.map] at h <;>
      simp [stepChildren, h.symm]
  | some (.object (.mk props req)) =>
    simp [subtypeStep] at h; simp [stepChildren, h.symm]
  | some (.string s) => simp [subtypeStep] at h; simp [stepChildren, h.symm]
  | some .boolean => simp [subtypeStep] at h; simp [stepChildren, h.symm]
  | some .null => simp [subtypeStep] at h; simp [stepChildren, h.symm]

theorem subtypeStep_ok_size {st : Option UncheckedDataSchemaSubtype}
    {cs : List UncheckedDataSchema} (h : subtypeStep st = .ok cs) :
    schemaListSize cs ≤ subOptSize st := by
  rw [subtypeStep_ok_children h]
  exact stepChildren_size st

theorem node_decompose (n : UncheckedDataSchema) :
    subOptSize n.subtype + schemaListSize (n.one_of.getD []) < schemaSize n := by
  rw [schemaSize_decompose n, schemaListOptSize_getD]
  omega

/-- Embedding of the loop of check_data_schema_subtype (lines 3824-3891) as a
recursive function on the loop state: the current node's optional subtype and
the explicit stack of schemas still to visit. -/
def check_loop (subtype : Option UncheckedDataSchemaSubtype)
    (stack : List UncheckedDataSchema) : Except Error Unit :=
  match h : subtypeStep subtype with
  | .error e => .error e
  | .ok children =>
    match hs : vecExtend stack children with
    | [] => .ok ()
    | n :: rest => check_loop n.subtype (vecExtend rest (n.one_of.getD []))
termination_by subOptSize subtype + schemaListSize stack
decreasing_by
  have h1 := subtypeStep_ok_size h
  have h2 : schemaSize n + schemaListSize rest
      = schemaListSize children + schemaListSize stack := by
    have hv : schemaListSize (vecExtend stack children)
        = schemaListSize children + schemaListSize stack := by
      simp [vecExtend, schemaListSize_append, schemaListSize_reverse]
    rw [hs] at hv
    simp [schemaListSize] at hv
    omega
  have h3 := node_decompose n
  rw [schemaListOptSize_getD] at h3
  simp only [vecExtend, schemaListSize_append, schemaListSize_reverse,
    schemaListOptSize_getD]
  omega

/-- Embedding of check_data_schema_subtype (lines 3819-3892): run the loop
from the given subtype with an empty stack. -/
def check_data_schema_subtype (subtype : Option UncheckedDataSchemaSubtype) :
    Except Error Unit :=
  check_loop subtype []

mutual

/-- Embedding of CheckableDataSchema::check for UncheckedDataSchema (lines
3803-3809): check the subtype tree, then check every one_of child. -/
def UncheckedDataSchema.check (ds : UncheckedDataSchema) : Except Error Unit :=
  (check_data_schema_subtype ds.subtype).bind fun _ =>
    check_one_of_schema ds.one_of
termination_by 3 * schemaSize ds
decreasing_by
  have := schemaSize_decompose ds
  omega

/-- Embedding of check_one_of_schema (lines 3894-3901): check every member of
the optional one_of list, first failure wins, absent list succeeds. -/
def check_one_of_schema : Option (List UncheckedDataSchema) → Except Error Unit
  | none => .ok ()
  | some l => checkEach l
termination_by oo => 3 * schemaListOptSize oo + 2
decreasing_by
  simp [schemaListOptSize]

/-- Iterator::try_for_each over the one_of members (line 3899). -/
def checkEach : List UncheckedDataSchema → Except Error Unit
  | [] => .ok ()
  | x :: xs => (x.check).bind fun _ => checkEach xs
termination_by l => 3 * schemaListSize l + 1
decreasing_by
  · have := schemaSize_pos x
    simp [schemaListSize]
    omega
  · have := schemaSize_pos x
    simp [schemaListSize]
    omega

end

/-- Success test for the per-subtype numeric checks of one node
(the own-checks part of one loop iteration, no recursion). -/
def ownOk (st : Option UncheckedDataSchemaSubtype) : Bool :=
  match subtypeStep st with
  | .ok _ => true
  | .error _ => false

mutual

/-- Recursive specification predicate: every node of the schema tree
(through subtype children and one_of members alike) passes its own numeric
checks. -/
def nodeOk (ds : UncheckedDataSchema) : Bool :=
  subtreeOk ds.subtype && listOk (ds.one_of.getD [])
termination_by 3 * schemaSize ds
decreasing_by
  · have := schemaSize_decompose ds
    omega
  · have := schemaSize_decompose ds
    rw [(schemaListOptSize_getD ds.one_of).symm] at this
    omega

/-- Specification predicate for a subtype position: its own checks pass and
every schema reachable through it is recursively fine. -/
def subtreeOk (st : Option UncheckedDataSchemaSubtype) : Bool :=
  ownOk st && listOk (stepChildren st)
termination_by 3 * subOptSize st + 2
decreasing_by
  have := stepChildren_size st
  omega

/-- Conjunction of nodeOk over a list of schemas. -/
def listOk : List UncheckedDataSchema → Bool
  | [] => true
  | x :: xs => nodeOk x && listOk xs
termination_by l => 3 * schemaListSize l + 1
decreasing_by
  · have := schemaSize_pos x
    simp [schemaListSize]
    omega
  · have := schemaSize_pos x
    simp [schemaListSize]
    omega

end

/-- True when the node's own subtype is a Number whose own numeric checks
(NaN, range, multiple_of) fail. -/
def numberBadHere (st : Option UncheckedDataSchemaSubtype) : Bool :=
  match st with
  | some (.number _) => !(ownOk st)
  | _ => false

mutual

/-- Recursive predicate: the tree rooted at this node contains (at any depth,
through array items, object properties or one_of members) a Number subtype
violating its own numeric rules. -/
def hasBadNumber (ds : UncheckedDataSchema) : Bool :=
  subHasBadNumber ds.subtype || listHasBadNumber (ds.one_of.getD [])
termination_by 3 * schemaSize ds
decreasing_by
  · have := schemaSize_decompose ds
    omega
  · have := schemaSize_decompose ds
    rw [(schemaListOptSize_getD ds.one_of).symm] at this
    omega

/-- hasBadNumber through a subtype position. -/
def subHasBadNumber (st : Option UncheckedDataSchemaSubtype) : Bool :=
  numberBadHere st || listHasBadNumber (stepChildren st)
termination_by 3 * subOptSize st + 2
decreasing_by
  have := stepChildren_size st
  omega

/-- Disjunction of hasBadNumber over a list of schemas. -/
def listHasBadNumber : List UncheckedDataSchema → Bool
  | [] => false
  | x :: xs => hasBadNumber x || listHasBadNumber xs
termination_by l => 3 * schemaListSize l + 1
decreasing_by
  · have := schemaSize_pos x
    simp [schemaListSize]
    omega
  · have := schemaSize_pos x
    simp [schemaListSize]
    omega

end

/-- Auxiliary sizes for the conversion recursion. -/
def arraySchemaSize : UncheckedArraySchema → Nat
  | .mk items _ _ => 1 + itemsOptSize items

/-- Auxiliary sizes for the conversion recursion. -/
def objSchemaSize : UncheckedObjectSchema → Nat
  | .mk props _ => 1 + propsOptSize props

theorem subSize_array (a : UncheckedArraySchema) :
    subSize (.array a) = arraySchemaSize a := by
  cases a; rfl

theorem subSize_object (o : UncheckedObjectSchema) :
    subSize (.object o) = objSchemaSize o := by
  cases o; rfl

/-- Modelled from the spec: MultiLanguageBuilder::build of crate::builder.
Each key must be a well-formed language tag according to the external
check `tagOk`; the first failing key aborts the build with
InvalidLanguageTag, otherwise the finished map is returned. -/
def buildMultiLanguage (tagOk : String → Bool) :
    List (String × String) → Except Error MultiLanguage
  | [] => .ok []
  | (k, v) :: rest =>
    if tagOk k then (buildMultiLanguage tagOk rest).map (fun r => (k, v) :: r)
    else .error (.invalidLanguageTag k)

/-- The titles.map(build).transpose() step of the checked conversion
(lines 3925-3928). -/
def buildOptML (tagOk : String → Bool) :
    Option MultiLanguageBuilder → Except Error (Option MultiLanguage)
  | none => .ok none
  | some b => (buildMultiLanguage tagOk b.values).map some

mutual

/-- Embedding of TryFrom of UncheckedDataSchema for DataSchema (lines
3903-3957): build the two localized maps, convert the one_of children, then
convert the subtype; every failure aborts the whole conversion. The external
language-tag well-formedness check is the parameter tagOk. -/
def tryFromDataSchema (tagOk : String → Bool) (ds : UncheckedDataSchema) :
    Except Error DataSchema :=
  match ds with
  | .mk attype title titles description descriptions constant default unit
      one_of enumeration ro wo format subtype =>
    (buildOptML tagOk titles).bind fun titles2 =>
    (buildOptML tagOk descriptions).bind fun descriptions2 =>
    (tryFromOptOneOf tagOk one_of).bind fun one_of2 =>
    (tryFromOptSubtype tagOk subtype).bind fun subtype2 =>
    .ok (.mk attype title titles2 description descriptions2 constant default
      unit one_of2 enumeration ro wo format subtype2)
/-- The one_of.map(collect of child conversions).transpose() step (lines
3929-3936). -/
def tryFromOptOneOf (tagOk : String → Bool) :
    Option (List UncheckedDataSchema) → Except Error (Option (List DataSchema))
  | none => .ok none
  | some l => (tryFromSchemaList tagOk l).map some
/-- Result-collecting conversion of a list of child schemas in order, first
failure wins. -/
def tryFromSchemaList (tagOk : String → Bool) :
    List UncheckedDataSchema → Except Error (List DataSchema)
  | [] => .ok []
  | x :: xs =>
    (tryFromDataSchema tagOk x).bind fun x2 =>
    (tryFromSchemaList tagOk xs).map (fun rest => x2 :: rest)
/-- The subtype.map(try_into).transpose() step (line 3937). -/
def tryFromOptSubtype (tagOk : String → Bool) :
    Option UncheckedDataSchemaSubtype → Except Error (Option DataSchemaSubtype)
  | none => .ok none
  | some st => (tryFromSubtype tagOk st).map some
/-- Embedding of TryFrom of UncheckedDataSchemaSubtype for DataSchemaSubtype
(lines 3973-3991): Array and Object convert recursively, the other variants
pass through. -/
def tryFromSubtype (tagOk : String → Bool) :
    UncheckedDataSchemaSubtype → Except Error DataSchemaSubtype
  | .array a => (tryFromArray tagOk a).map .array
  | .boolean => .ok .boolean
  | .number n => .ok (.number n)
  | .integer i => .ok (.integer i)
  | .object o => (tryFromObject tagOk o).map .object
  | .string s => .ok (.string s)
  | .null => .ok .null
/-- Embedding of TryFrom of UncheckedArraySchema for ArraySchema (lines
3993-4023). -/
def tryFromArray (tagOk : String → Bool) :
    UncheckedArraySchema → Except Error ArraySchema
  | .mk items mi ma =>
    (tryFromOptItems tagOk items).map fun items2 => .mk items2 mi ma
/-- The items.map(...).transpose() step of the array conversion: one boxed
element converts directly, a vector of elements collects in order. -/
def tryFromOptItems (tagOk : String → Bool) :
    Option (BoxedElemOrVec UncheckedDataSchema) →
      Except Error (Option (BoxedElemOrVec DataSchema))
  | none => .ok none
  | some (.elem item) =>
    (tryFromDataSchema tagOk item).map fun i => some (.elem i)
  | some (.vec items) =>
    (tryFromSchemaList tagOk items).map fun l => some (.vec l)
/-- Embedding of TryFrom of UncheckedObjectSchema for ObjectSchema (lines
4025-4049). -/
def tryFromObject (tagOk : String → Bool) :
    UncheckedObjectSchema → Except Error ObjectSchema
  | .mk props req =>
    (tryFromOptProps tagOk props).map fun props2 => .mk props2 req
/-- The properties.map(...).transpose() step of the object conversion. -/
def tryFromOptProps (tagOk : String → Bool) :
    Option (List (String × UncheckedDataSchema)) →
      Except Error (Option (List (String × DataSchema)))
  | none => .ok none
  | some ps => (tryFromPropsList tagOk ps).map some
/-- Result-collecting conversion of the property association list in map
order, converting each value and keeping each key. -/
def tryFromPropsList (tagOk : String → Bool) :
    List (String × UncheckedDataSchema) → Except Error (List (String × DataSchema))
  | [] => .ok []
  | (k, v) :: rest =>
    (tryFromDataSchema tagOk v).bind fun v2 =>
    (tryFromPropsList tagOk rest).map (fun r => (k, v2) :: r)
end

/-- The language-tag keys of an optional localized map, in map order. -/
def mlTags : Option MultiLanguageBuilder → List String
  | none => []
  | some b => b.values.map Prod.fst

mutual

/-- All language-tag keys of the titles/descriptions maps anywhere in the
tree, listed in the exact order the checked conversion visits them. -/
def schemaTags (ds : UncheckedDataSchema) : List String :=
  match ds with
  | .mk _ _ titles _ descriptions _ _ _ one_of _ _ _ _ subtype =>
    mlTags titles ++ (mlTags descriptions ++ (oneOfTags one_of ++ subOptTags subtype))
/-- schemaTags of an optional one_of list. -/
def oneOfTags : Option (List UncheckedDataSchema) → List String
  | none => []
  | some l => listTags l
/-- schemaTags of each member of a list, in order. -/
def listTags : List UncheckedDataSchema → List String
  | [] => []
  | x :: xs => schemaTags x ++ listTags xs
/-- schemaTags of an optional subtype. -/
def subOptTags : Option UncheckedDataSchemaSubtype → List String
  | none => []
  | some st => subTags st
/-- schemaTags through a subtype: only Array and Object carry children. -/
def subTags : UncheckedDataSchemaSubtype → List String
  | .array a => arrayTags a
  | .boolean => []
  | .number _ => []
  | .integer _ => []
  | .object o => objectTags o
  | .string _ => []
  | .null => []
/-- schemaTags of an array schema payload. -/
def arrayTags : UncheckedArraySchema → List String
  | .mk items _ _ => itemsTags items
/-- schemaTags of the optional array items. -/
def itemsTags : Option (BoxedElemOrVec UncheckedDataSchema) → List String
  | none => []
  | some (.elem item) => schemaTags item
  | some (.vec items) => listTags items
/-- schemaTags of an object schema payload. -/
def objectTags : UncheckedObjectSchema → List String
  | .mk props _ => propsOptTags props
/-- schemaTags of the optional property map. -/
def propsOptTags : Option (List (String × UncheckedDataSchema)) → List String
  | none => []
  | some ps => propsTags ps
/-- schemaTags of each property value, in map order. -/
def propsTags : List (String × UncheckedDataSchema) → List String
  | [] => []
  | (_, v) :: rest => schemaTags v ++ propsTags rest
end

/-- Embedding of the HumanReadableInfo sub-builder record
(crate::builder::human_readable_info, consumed here; field list as used by
the destructuring in this file, e.g. lines 2715-2722). -/
structure HumanReadableInfo : Type where
  attype : Option (List String)
  title : Option String
  titles : Option MultiLanguageBuilder
  description : Option String
  descriptions : Option MultiLanguageBuilder

/-- Embedding of PartialDataSchemaBuilder (lines 111-124) at the Extended
phase, extension payload omitted. The ToExtend phase operations (ext,
ext_with, finish_extend, lines 146-216) only manipulate that payload and
copy every field below unchanged, so they are identities in this model. -/
structure BaseDataSchemaBuilder : Type where
  constant : Option Value
  default : Option Value
  unit : Option String
  one_of : List UncheckedDataSchema
  enumeration : List Value
  read_only : Bool
  write_only : Bool
  format : Option String

/-- Embedding of DataSchemaBuilder (lines 367-371): the base builder (named
after the source field holding the PartialDataSchemaBuilder) plus the
human-readable info sub-builder. In every reachable builder state the Inner
type parameter of a specialized builder instantiates to this type. -/
structure DataSchemaBuilder : Type where
  base : BaseDataSchemaBuilder
  info : HumanReadableInfo

/-- Embedding of the Default instances (lines 218-236 and 414-424): every
optional field absent, both flags false, empty collections. -/
def DataSchemaBuilder.defaultE : DataSchemaBuilder :=
  ⟨⟨none, none, none, [], [], false, false, none⟩, ⟨none, none, none, none, none⟩⟩

/-- One generic Extended-phase field-setting operation: the three
BuildableDataSchema setters (lines 2210-2227) and the five human-readable
info setters. The human-readable setters are modelled from the spec
(section 6): attype appends one tag, the others are last-write-wins. -/
inductive GenOp : Type where
  | unit (s : String)
  | format (s : String)
  | default_value (v : Value)
  | attype (s : String)
  | title (s : String)
  | titles (m : MultiLanguageBuilder)
  | description (s : String)
  | descriptions (m : MultiLanguageBuilder)

/-- Application of a generic setter to the base data-schema builder. -/
def applyGen : GenOp → DataSchemaBuilder → DataSchemaBuilder
  | .unit s, b => { b with base.unit := some s }
  | .format s, b => { b with base.format := some s }
  | .default_value v, b => { b with base.default := some v }
  | .attype s, b => { b with info.attype := some ((b.info.attype.getD []) ++ [s]) }
  | .title s, b => { b with info.title := some s }
  | .titles m, b => { b with info.titles := some m }
  | .description s, b => { b with info.description := some s }
  | .descriptions m, b => { b with info.descriptions := some m }

/-- Embedding of StatelessDataSchemaType (lines 1544-1551). -/
inductive StatelessDataSchemaType : Type where
  | boolean
  | null

/-- Embedding of From of StatelessDataSchemaType for
UncheckedDataSchemaSubtype (lines 2686-2693). -/
def statelessSubtype : StatelessDataSchemaType → UncheckedDataSchemaSubtype
  | .boolean => .boolean
  | .null => .null

/-- Embedding of StatelessDataSchemaBuilder (lines 1553-1557). -/
structure StatelessDataSchemaBuilder : Type where
  inner : DataSchemaBuilder
  ty : Option StatelessDataSchemaType

/-- Embedding of TupleDataSchemaBuilder (lines 1474-1482). -/
structure TupleDataSchemaBuilder : Type where
  inner : DataSchemaBuilder
  items : List UncheckedDataSchema

/-- Embedding of VecDataSchemaBuilder (lines 1484-1494). -/
structure VecDataSchemaBuilder : Type where
  inner : DataSchemaBuilder
  item : Option UncheckedDataSchema
  min_items : Option Nat
  max_items : Option Nat

/-- Embedding of NumberDataSchemaBuilder (lines 1496-1502). -/
structure NumberDataSchemaBuilder : Type where
  inner : DataSchemaBuilder
  maximum : Option (Maximum F64)
  minimum : Option (Minimum F64)
  multiple_of : Option F64

/-- Embedding of IntegerDataSchemaBuilder (lines 1504-1510). -/
structure IntegerDataSchemaBuilder : Type where
  inner : DataSchemaBuilder
  maximum : Option (Maximum Int)
  minimum : Option (Minimum Int)
  multiple_of : Option PNat

/-- Embedding of ObjectDataSchemaBuilder (lines 1512-1520). -/
structure ObjectDataSchemaBuilder : Type where
  inner : DataSchemaBuilder
  properties : List (String × UncheckedDataSchema)
  required : List String

/-- Embedding of StringDataSchemaBuilder (lines 1522-1530). -/
structure StringDataSchemaBuilder : Type where
  inner : DataSchemaBuilder
  min_length : Option Nat
  max_length : Option Nat
  pattern : Option String
  content_encoding : Option String
  content_media_type : Option String

/-- Embedding of EnumDataSchemaBuilder (lines 1532-1536). -/
structure EnumDataSchemaBuilder : Type where
  inner : DataSchemaBuilder

/-- Embedding of OneOfDataSchemaBuilder (lines 1538-1542). -/
structure OneOfDataSchemaBuilder : Type where
  inner : DataSchemaBuilder

/-- Embedding of the ReadOnly typetag (lines 1559-1562). -/
structure ReadOnly (Inner : Type) : Type where
  inner : Inner

/-- Embedding of the WriteOnly typetag (lines 1564-1567). -/
structure WriteOnly (Inner : Type) : Type where
  inner : Inner

/-- Embedding of SpecializableDataSchema::tuple (lines 2286-2309; tuple_ext
differs only in the omitted extension payload). -/
def DataSchemaBuilder.tuple (b : DataSchemaBuilder) : TupleDataSchemaBuilder :=
  ⟨b, []⟩

/-- Embedding of SpecializableDataSchema::vec (lines 2311-2338). -/
def DataSchemaBuilder.vec (b : DataSchemaBuilder) : VecDataSchemaBuilder :=
  ⟨b, none, none, none⟩

/-- Embedding of SpecializableDataSchema::bool (lines 2340-2345). -/
def DataSchemaBuilder.bool (b : DataSchemaBuilder) : StatelessDataSchemaBuilder :=
  ⟨b, some .boolean⟩

/-- Embedding of SpecializableDataSchema::number (lines 2347-2354). -/
def DataSchemaBuilder.number (b : DataSchemaBuilder) : NumberDataSchemaBuilder :=
  ⟨b, none, none, none⟩

/-- Embedding of SpecializableDataSchema::integer (lines 2356-2363). -/
def DataSchemaBuilder.integer (b : DataSchemaBuilder) : IntegerDataSchemaBuilder :=
  ⟨b, none, none, none⟩

/-- Embedding of SpecializableDataSchema::object (lines 2365-2390). -/
def DataSchemaBuilder.object (b : DataSchemaBuilder) : ObjectDataSchemaBuilder :=
  ⟨b, [], []⟩

/-- Embedding of SpecializableDataSchema::string (lines 2392-2401). -/
def DataSchemaBuilder.string (b : DataSchemaBuilder) : StringDataSchemaBuilder :=
  ⟨b, none, none, none, none, none⟩

/-- Embedding of SpecializableDataSchema::null (lines 2403-2408). -/
def DataSchemaBuilder.null (b : DataSchemaBuilder) : StatelessDataSchemaBuilder :=
  ⟨b, some .null⟩

/-- Embedding of SpecializableDataSchema::constant (lines 2410-2418): record
the literal in the builder's constant field, then wrap a type-less stateless
builder in ReadOnly. -/
def DataSchemaBuilder.constant (b : DataSchemaBuilder) (v : Value) :
    ReadOnly StatelessDataSchemaBuilder :=
  ⟨⟨{ b with base.constant := some v }, none⟩⟩

/-- Embedding of EnumerableDataSchema::enumeration on the generic builder
(lines 2426-2441): push one literal, transition to the Enum typetag. -/
def DataSchemaBuilder.enumeration (b : DataSchemaBuilder) (v : Value) :
    EnumDataSchemaBuilder :=
  ⟨{ b with base.enumeration := b.base.enumeration ++ [v] }⟩

/-- Embedding of UnionDataSchema::one_of on the generic builder (lines
2497-2518): push one child schema, transition to the OneOf typetag. The
child value stands for the closure result already converted into
UncheckedDataSchema. -/
def DataSchemaBuilder.one_of (b : DataSchemaBuilder) (child : UncheckedDataSchema) :
    OneOfDataSchemaBuilder :=
  ⟨{ b with base.one_of := b.base.one_of ++ [child] }⟩

/-- Embedding of EnumerableDataSchema::enumeration on the Enum typetag
(lines 2485-2494). -/
def EnumDataSchemaBuilder.enumeration (e : EnumDataSchemaBuilder) (v : Value) :
    EnumDataSchemaBuilder :=
  ⟨{ e.inner with base.enumeration := e.inner.base.enumeration ++ [v] }⟩

/-- Embedding of UnionDataSchema::one_of on the OneOf typetag (lines
2574-2591). -/
def OneOfDataSchemaBuilder.one_of (o : OneOfDataSchemaBuilder)
    (child : UncheckedDataSchema) : OneOfDataSchemaBuilder :=
  ⟨{ o.inner with base.one_of := o.inner.base.one_of ++ [child] }⟩

/-- Embedding of TupleDataSchemaBuilderLike::append (lines 1828-1837). -/
def TupleDataSchemaBuilder.append (t : TupleDataSchemaBuilder)
    (child : UncheckedDataSchema) : TupleDataSchemaBuilder :=
  { t with items := t.items ++ [child] }

/-- Embedding of VecDataSchemaBuilderLike::set_item (lines 1847-1855). -/
def VecDataSchemaBuilder.set_item (v : VecDataSchemaBuilder)
    (child : UncheckedDataSchema) : VecDataSchemaBuilder :=
  { v with item := some child }

/-- Embedding of VecDataSchemaBuilderLike::min_items (line 1845). -/
def VecDataSchemaBuilder.min_items_set (v : VecDataSchemaBuilder) (n : Nat) :
    VecDataSchemaBuilder :=
  { v with min_items := some n }

/-- Embedding of VecDataSchemaBuilderLike::max_items (line 1845). -/
def VecDataSchemaBuilder.max_items_set (v : VecDataSchemaBuilder) (n : Nat) :
    VecDataSchemaBuilder :=
  { v with max_items := some n }

/-- Embedding of NumberDataSchemaBuilderLike::minimum (lines 1863-1866):
records an inclusive lower bound, overwriting any previous minimum. -/
def NumberDataSchemaBuilder.minimum_set (b : NumberDataSchemaBuilder) (v : F64) :
    NumberDataSchemaBuilder :=
  { b with minimum := some (.inclusive v) }

/-- Embedding of NumberDataSchemaBuilderLike::exclusive_minimum (lines
1868-1871). -/
def NumberDataSchemaBuilder.exclusive_minimum_set (b : NumberDataSchemaBuilder)
    (v : F64) : NumberDataSchemaBuilder :=
  { b with minimum := some (.exclusive v) }

/-- Embedding of NumberDataSchemaBuilderLike::maximum (lines 1873-1876). -/
def NumberDataSchemaBuilder.maximum_set (b : NumberDataSchemaBuilder) (v : F64) :
    NumberDataSchemaBuilder :=
  { b with maximum := some (.inclusive v) }

/-- Embedding of NumberDataSchemaBuilderLike::exclusive_maximum (lines
1878-1881). -/
def NumberDataSchemaBuilder.exclusive_maximum_set (b : NumberDataSchemaBuilder)
    (v : F64) : NumberDataSchemaBuilder :=
  { b with maximum := some (.exclusive v) }

/-- Embedding of NumberDataSchemaBuilderLike::multiple_of (line 1861). -/
def NumberDataSchemaBuilder.multiple_of_set (b : NumberDataSchemaBuilder)
    (v : F64) : NumberDataSchemaBuilder :=
  { b with multiple_of := some v }

/-- Embedding of IntegerDataSchemaBuilderLike::minimum (lines 1889-1892). -/
def IntegerDataSchemaBuilder.minimum_set (b : IntegerDataSchemaBuilder) (v : Int) :
    IntegerDataSchemaBuilder :=
  { b with minimum := some (.inclusive v) }

/-- Embedding of IntegerDataSchemaBuilderLike::exclusive_minimum (lines
1894-1897). -/
def IntegerDataSchemaBuilder.exclusive_minimum_set (b : IntegerDataSchemaBuilder)
    (v : Int) : IntegerDataSchemaBuilder :=
  { b with minimum := some (.exclusive v) }

/-- Embedding of IntegerDataSchemaBuilderLike::maximum (lines 1899-1902). -/
def IntegerDataSchemaBuilder.maximum_set (b : IntegerDataSchemaBuilder) (v : Int) :
    IntegerDataSchemaBuilder :=
  { b with maximum := some (.inclusive v) }

/-- Embedding of IntegerDataSchemaBuilderLike::exclusive_maximum (lines
1904-1907). -/
def IntegerDataSchemaBuilder.exclusive_maximum_set (b : IntegerDataSchemaBuilder)
    (v : Int) : IntegerDataSchemaBuilder :=
  { b with maximum := some (.exclusive v) }

/-- Embedding of IntegerDataSchemaBuilderLike::multiple_of (line 1887). -/
def IntegerDataSchemaBuilder.multiple_of_set (b : IntegerDataSchemaBuilder)
    (v : PNat) : IntegerDataSchemaBuilder :=
  { b with multiple_of := some v }

/-- Embedding of ObjectDataSchemaBuilderLike::property (lines 1915-1930):
if required, push the name onto the required list; always push the
(name, schema) pair onto the properties list. The child value stands for the
closure result already converted into UncheckedDataSchema. -/
def ObjectDataSchemaBuilder.property (b : ObjectDataSchemaBuilder) (name : String)
    (required : Bool) (child : UncheckedDataSchema) : ObjectDataSchemaBuilder :=
  let b := if required then { b with required := b.required ++ [name] } else b
  { b with properties := b.properties ++ [(name, child)] }

/-- Embedding of the StringDataSchemaBuilderLike setters (lines 1933-1943). -/
def StringDataSchemaBuilder.min_length_set (b : StringDataSchemaBuilder) (n : Nat) :
    StringDataSchemaBuilder :=
  { b with min_length := some n }

/-- Embedding of the StringDataSchemaBuilderLike setters (lines 1933-1943). -/
def StringDataSchemaBuilder.max_length_set (b : StringDataSchemaBuilder) (n : Nat) :
    StringDataSchemaBuilder :=
  { b with max_length := some n }

/-- Embedding of the StringDataSchemaBuilderLike setters (lines 1933-1943). -/
def StringDataSchemaBuilder.pattern_set (b : StringDataSchemaBuilder) (s : String) :
    StringDataSchemaBuilder :=
  { b with pattern := some s }

/-- Embedding of the StringDataSchemaBuilderLike setters (lines 1933-1943). -/
def StringDataSchemaBuilder.content_encoding_set (b : StringDataSchemaBuilder)
    (s : String) : StringDataSchemaBuilder :=
  { b with content_encoding := some s }

/-- Embedding of the StringDataSchemaBuilderLike setters (lines 1933-1943). -/
def StringDataSchemaBuilder.content_media_type_set (b : StringDataSchemaBuilder)
    (s : String) : StringDataSchemaBuilder :=
  { b with content_media_type := some s }

/-- Embedding of ReadableWriteableDataSchema::read_only via impl_rw_data_schema
(lines 2593-2638): set the underlying base builder's read_only flag, then wrap.
One definition per specialized builder type, all instances of the same macro. -/
def StatelessDataSchemaBuilder.read_only (b : StatelessDataSchemaBuilder) :
    ReadOnly StatelessDataSchemaBuilder :=
  ⟨{ b with inner.base.read_only := true }⟩

/-- Embedding of ReadableWriteableDataSchema::write_only (lines 2593-2638). -/
def StatelessDataSchemaBuilder.write_only (b : StatelessDataSchemaBuilder) :
    WriteOnly StatelessDataSchemaBuilder :=
  ⟨{ b with inner.base.write_only := true }⟩

/-- Embedding of impl_rw_data_schema for TupleDataSchemaBuilder. -/
def TupleDataSchemaBuilder.read_only (b : TupleDataSchemaBuilder) :
    ReadOnly TupleDataSchemaBuilder :=
  ⟨{ b with inner.base.read_only := true }⟩

/-- Embedding of impl_rw_data_schema for TupleDataSchemaBuilder. -/
def TupleDataSchemaBuilder.write_only (b : TupleDataSchemaBuilder) :
    WriteOnly TupleDataSchemaBuilder :=
  ⟨{ b with inner.base.write_only := true }⟩

/-- Embedding of impl_rw_data_schema for VecDataSchemaBuilder. -/
def VecDataSchemaBuilder.read_only (b : VecDataSchemaBuilder) :
    ReadOnly VecDataSchemaBuilder :=
  ⟨{ b with inner.base.read_only := true }⟩

/-- Embedding of impl_rw_data_schema for VecDataSchemaBuilder. -/
def VecDataSchemaBuilder.write_only (b : VecDataSchemaBuilder) :
    WriteOnly VecDataSchemaBuilder :=
  ⟨{ b with inner.base.write_only := true }⟩

/-- Embedding of impl_rw_data_schema for NumberDataSchemaBuilder. -/
def NumberDataSchemaBuilder.read_only (b : NumberDataSchemaBuilder) :
    ReadOnly NumberDataSchemaBuilder :=
  ⟨{ b with inner.base.read_only := true }⟩

/-- Embedding of impl_rw_data_schema for NumberDataSchemaBuilder. -/
def NumberDataSchemaBuilder.write_only (b : NumberDataSchemaBuilder) :
    WriteOnly NumberDataSchemaBuilder :=
  ⟨{ b with inner.base.write_only := true }⟩

/-- Embedding of impl_rw_data_schema for IntegerDataSchemaBuilder. -/
def IntegerDataSchemaBuilder.read_only (b : IntegerDataSchemaBuilder) :
    ReadOnly IntegerDataSchemaBuilder :=
  ⟨{ b with inner.base.read_only := true }⟩

/-- Embedding of impl_rw_data_schema for IntegerDataSchemaBuilder. -/
def IntegerDataSchemaBuilder.write_only (b : IntegerDataSchemaBuilder) :
    WriteOnly IntegerDataSchemaBuilder :=
  ⟨{ b with inner.base.write_only := true }⟩

/-- Embedding of impl_rw_data_schema for ObjectDataSchemaBuilder. -/
def ObjectDataSchemaBuilder.read_only (b : ObjectDataSchemaBuilder) :
    ReadOnly ObjectDataSchemaBuilder :=
  ⟨{ b with inner.base.read_only := true }⟩

/-- Embedding of impl_rw_data_schema for ObjectDataSchemaBuilder. -/
def ObjectDataSchemaBuilder.write_only (b : ObjectDataSchemaBuilder) :
    WriteOnly ObjectDataSchemaBuilder :=
  ⟨{ b with inner.base.write_only := true }⟩

/-- Embedding of impl_rw_data_schema for StringDataSchemaBuilder. -/
def StringDataSchemaBuilder.read_only (b : StringDataSchemaBuilder) :
    ReadOnly StringDataSchemaBuilder :=
  ⟨{ b with inner.base.read_only := true }⟩

/-- Embedding of impl_rw_data_schema for StringDataSchemaBuilder. -/
def StringDataSchemaBuilder.write_only (b : StringDataSchemaBuilder) :
    WriteOnly StringDataSchemaBuilder :=
  ⟨{ b with inner.base.write_only := true }⟩

/-- Embedding of impl_rw_data_schema for EnumDataSchemaBuilder. -/
def EnumDataSchemaBuilder.read_only (b : EnumDataSchemaBuilder) :
    ReadOnly EnumDataSchemaBuilder :=
  ⟨{ b with inner.base.read_only := true }⟩

/-- Embedding of impl_rw_data_schema for EnumDataSchemaBuilder. -/
def EnumDataSchemaBuilder.write_only (b : EnumDataSchemaBuilder) :
    WriteOnly EnumDataSchemaBuilder :=
  ⟨{ b with inner.base.write_only := true }⟩

/-- Embedding of EnumerableDataSchema for ReadOnly (lines 2443-2456):
delegate to the inner builder and rewrap. Reachable only at
Inner = EnumDataSchemaBuilder. -/
def ReadOnly.enumeration (w : ReadOnly EnumDataSchemaBuilder) (v : Value) :
    ReadOnly EnumDataSchemaBuilder :=
  ⟨w.inner.enumeration v⟩

/-- Embedding of EnumerableDataSchema for WriteOnly (lines 2458-2471). -/
def WriteOnly.enumeration (w : WriteOnly EnumDataSchemaBuilder) (v : Value) :
    WriteOnly EnumDataSchemaBuilder :=
  ⟨w.inner.enumeration v⟩

/-- Embedding of From of StatelessDataSchemaBuilder for UncheckedDataSchema
(lines 2695-2745): generic fields and info copy through, one_of and
enumeration are cleared, the subtype is the mapped stateless type. -/
def StatelessDataSchemaBuilder.toUnchecked (b : StatelessDataSchemaBuilder) :
    UncheckedDataSchema :=
  .mk b.inner.info.attype b.inner.info.title b.inner.info.titles
    b.inner.info.description b.inner.info.descriptions
    b.inner.base.constant b.inner.base.default b.inner.base.unit
    none none
    b.inner.base.read_only b.inner.base.write_only b.inner.base.format
    (b.ty.map statelessSubtype)

/-- Embedding of From of TupleDataSchemaBuilder for UncheckedDataSchema
(lines 2795-2855): constant is discarded, items always becomes the Vec
variant (even when empty), min_items and max_items are absent. -/
def TupleDataSchemaBuilder.toUnchecked (b : TupleDataSchemaBuilder) :
    UncheckedDataSchema :=
  .mk b.inner.info.attype b.inner.info.title b.inner.info.titles
    b.inner.info.description b.inner.info.descriptions
    none b.inner.base.default b.inner.base.unit
    none none
    b.inner.base.read_only b.inner.base.write_only b.inner.base.format
    (some (.array (.mk (some (.vec b.items)) none none)))

/-- Embedding of From of VecDataSchemaBuilder for UncheckedDataSchema
(lines 2857-2919): items is the boxed Elem variant when an item was set,
absent otherwise; min_items and max_items copy through. -/
def VecDataSchemaBuilder.toUnchecked (b : VecDataSchemaBuilder) :
    UncheckedDataSchema :=
  .mk b.inner.info.attype b.inner.info.title b.inner.info.titles
    b.inner.info.description b.inner.info.descriptions
    none b.inner.base.default b.inner.base.unit
    none none
    b.inner.base.read_only b.inner.base.write_only b.inner.base.format
    (some (.array (.mk (b.item.map (fun i => .elem i)) b.min_items b.max_items)))

/-- Embedding of From of NumberDataSchemaBuilder for UncheckedDataSchema
(lines 3039-3098). -/
def NumberDataSchemaBuilder.toUnchecked (b : NumberDataSchemaBuilder) :
    UncheckedDataSchema :=
  .mk b.inner.info.attype b.inner.info.title b.inner.info.titles
    b.inner.info.description b.inner.info.descriptions
    none b.inner.base.default b.inner.base.unit
    none none
    b.inner.base.read_only b.inner.base.write_only b.inner.base.format
    (some (.number ⟨b.minimum, b.maximum, b.multiple_of⟩))

/-- Embedding of From of IntegerDataSchemaBuilder for UncheckedDataSchema
(lines 3157-3216). -/
def IntegerDataSchemaBuilder.toUnchecked (b : IntegerDataSchemaBuilder) :
    UncheckedDataSchema :=
  .mk b.inner.info.attype b.inner.info.title b.inner.info.titles
    b.inner.info.description b.inner.info.descriptions
    none b.inner.base.default b.inner.base.unit
    none none
    b.inner.base.read_only b.inner.base.write_only b.inner.base.format
    (some (.integer ⟨b.minimum, b.maximum, b.multiple_of⟩))

/-- Modelled from the spec: the FromIterator collection of (name, schema)
pairs into the ordered property map (spec section 3: an ordered name-to-child
map in insertion order). Inserting an existing key replaces its value in
place; a new key is appended. -/
def insertMap (m : List (String × UncheckedDataSchema)) (k : String)
    (v : UncheckedDataSchema) : List (String × UncheckedDataSchema) :=
  match m with
  | [] => [(k, v)]
  | (k2, v2) :: rest =>
    if k2 = k then (k, v) :: rest else (k2, v2) :: insertMap rest k v

/-- Modelled from the spec: properties.into_iter().collect() into the ordered
property map. -/
def collectMap (ps : List (String × UncheckedDataSchema)) :
    List (String × UncheckedDataSchema) :=
  ps.foldl (fun m kv => insertMap m kv.1 kv.2) []

/-- Embedding of From of ObjectDataSchemaBuilder for UncheckedDataSchema
(lines 3275-3339): empty collections normalize to absent fields, non-empty
properties collect into the ordered map in insertion order. -/
def ObjectDataSchemaBuilder.toUnchecked (b : ObjectDataSchemaBuilder) :
    UncheckedDataSchema :=
  .mk b.inner.info.attype b.inner.info.title b.inner.info.titles
    b.inner.info.description b.inner.info.descriptions
    none b.inner.base.default b.inner.base.unit
    none none
    b.inner.base.read_only b.inner.base.write_only b.inner.base.format
    (some (.object (.mk
      (if b.properties.isEmpty then none else some (collectMap b.properties))
      (if b.required.isEmpty then none else some b.required))))

/-- Embedding of From of StringDataSchemaBuilder for UncheckedDataSchema
(lines 3403-3467). -/
def StringDataSchemaBuilder.toUnchecked (b : StringDataSchemaBuilder) :
    UncheckedDataSchema :=
  .mk b.inner.info.attype b.inner.info.title b.inner.info.titles
    b.inner.info.description b.inner.info.descriptions
    none b.inner.base.default b.inner.base.unit
    none none
    b.inner.base.read_only b.inner.base.write_only b.inner.base.format
    (some (.string ⟨b.min_length, b.max_length, b.pattern, b.content_encoding,
      b.content_media_type⟩))

/-- Embedding of From of EnumDataSchemaBuilder for UncheckedDataSchema
(lines 3607-3655): the accumulated enumeration list is wrapped in Some,
subtype and one_of are cleared. -/
def EnumDataSchemaBuilder.toUnchecked (b : EnumDataSchemaBuilder) :
    UncheckedDataSchema :=
  .mk b.inner.info.attype b.inner.info.title b.inner.info.titles
    b.inner.info.description b.inner.info.descriptions
    none b.inner.base.default b.inner.base.unit
    none (some b.inner.base.enumeration)
    b.inner.base.read_only b.inner.base.write_only b.inner.base.format
    none

/-- Embedding of From of OneOfDataSchemaBuilder for UncheckedDataSchema
(lines 3703-3751): the accumulated one_of children are wrapped in Some,
subtype and enumeration are cleared. -/
def OneOfDataSchemaBuilder.toUnchecked (b : OneOfDataSchemaBuilder) :
    UncheckedDataSchema :=
  .mk b.inner.info.attype b.inner.info.title b.inner.info.titles
    b.inner.info.description b.inner.info.descriptions
    none b.inner.base.default b.inner.base.unit
    (some b.inner.base.one_of) none
    b.inner.base.read_only b.inner.base.write_only b.inner.base.format
    none

/-- Embedding of From of ReadOnly for UncheckedDataSchema (lines 3531-3542):
convert the inner builder, then force read_only to true. -/
def readOnlyUnchecked (u : UncheckedDataSchema) : UncheckedDataSchema :=
  match u with
  | .mk a t ti d de c df un oo en _ wo f st =>
    .mk a t ti d de c df un oo en true wo f st

/-- Embedding of From of WriteOnly for UncheckedDataSchema (lines 3556-3567):
convert the inner builder, then force read_only to false (write_only was
already set to true by the write_only wrapping operation). -/
def writeOnlyUnchecked (u : UncheckedDataSchema) : UncheckedDataSchema :=
  match u with
  | .mk a t ti d de c df un oo en _ wo f st =>
    .mk a t ti d de c df un oo en false wo f st

/-- The nine terminal specialized builder states that convert directly into
UncheckedDataSchema. -/
inductive PlainTerminal : Type where
  | stateless (b : StatelessDataSchemaBuilder)
  | tuple (b : TupleDataSchemaBuilder)
  | vec (b : VecDataSchemaBuilder)
  | number (b : NumberDataSchemaBuilder)
  | integer (b : IntegerDataSchemaBuilder)
  | object (b : ObjectDataSchemaBuilder)
  | string (b : StringDataSchemaBuilder)
  | enum (b : EnumDataSchemaBuilder)
  | oneOf (b : OneOfDataSchemaBuilder)

/-- Conversion of a plain terminal state into UncheckedDataSchema (the
corresponding From impl per case). -/
def PlainTerminal.toUnchecked : PlainTerminal → UncheckedDataSchema
  | .stateless b => b.toUnchecked
  | .tuple b => b.toUnchecked
  | .vec b => b.toUnchecked
  | .number b => b.toUnchecked
  | .integer b => b.toUnchecked
  | .object b => b.toUnchecked
  | .string b => b.toUnchecked
  | .enum b => b.toUnchecked
  | .oneOf b => b.toUnchecked

/-- A terminal builder state: one of the nine specialized states, optionally
wrapped in ReadOnly or WriteOnly. -/
inductive TerminalBuilder : Type where
  | plain (p : PlainTerminal)
  | readOnly (p : PlainTerminal)
  | writeOnly (p : PlainTerminal)

/-- Conversion of a terminal builder state into UncheckedDataSchema: plain
states convert directly, wrapped states convert the inner state and then
apply the wrapper From impl. -/
def TerminalBuilder.toUnchecked : TerminalBuilder → UncheckedDataSchema
  | .plain p => p.toUnchecked
  | .readOnly p => readOnlyUnchecked p.toUnchecked
  | .writeOnly p => writeOnlyUnchecked p.toUnchecked

/-- Number of populated members among the mutually exclusive fields subtype,
one_of and enumeration of an unchecked node. -/
def populatedCount (u : UncheckedDataSchema) : Nat :=
  (if u.subtype.isSome then 1 else 0) + (if u.one_of.isSome then 1 else 0)
    + (if u.enumeration.isSome then 1 else 0)

/-- The family-wise exclusion property claimed for terminal builder states:
subtype-specialized nodes clear one_of and enumeration, enumeration nodes
clear subtype and one_of, union nodes clear subtype and enumeration. -/
def familyExclusion (t : TerminalBuilder) : Prop :=
  match t with
  | .plain p | .readOnly p | .writeOnly p =>
    match p with
    | .enum _ => t.toUnchecked.subtype = none ∧ t.toUnchecked.one_of = none
    | .oneOf _ => t.toUnchecked.subtype = none ∧ t.toUnchecked.enumeration = none
    | _ => t.toUnchecked.one_of = none ∧ t.toUnchecked.enumeration = none

/-- The chainable operations available on a StatelessDataSchemaBuilder:
only the delegated generic setters (lines 2196-2208, 2268). -/
inductive StatelessOp : Type where
  | gen (g : GenOp)

/-- Operation application for StatelessDataSchemaBuilder (delegation to the
inner builder). -/
def applyStatelessOp : StatelessOp → StatelessDataSchemaBuilder → StatelessDataSchemaBuilder
  | .gen g, b => { b with inner := applyGen g b.inner }

/-- The chainable operations on a TupleDataSchemaBuilder: append (the child
argument stands for the already-converted closure result) and the delegated
generic setters. -/
inductive TupleOp : Type where
  | append (child : UncheckedDataSchema)
  | gen (g : GenOp)

/-- Operation application for TupleDataSchemaBuilder. -/
def applyTupleOp : TupleOp → TupleDataSchemaBuilder → TupleDataSchemaBuilder
  | .append child, b => b.append child
  | .gen g, b => { b with inner := applyGen g b.inner }

/-- The chainable operations on a VecDataSchemaBuilder. -/
inductive VecOp : Type where
  | min_items (n : Nat)
  | max_items (n : Nat)
  | set_item (child : UncheckedDataSchema)
  | gen (g : GenOp)

/-- Operation application for VecDataSchemaBuilder. -/
def applyVecOp : VecOp → VecDataSchemaBuilder → VecDataSchemaBuilder
  | .min_items n, b => b.min_items_set n
  | .max_items n, b => b.max_items_set n
  | .set_item child, b => b.set_item child
  | .gen g, b => { b with inner := applyGen g b.inner }

/-- The chainable operations on a NumberDataSchemaBuilder. -/
inductive NumberOp : Type where
  | minimum (v : F64)
  | maximum (v : F64)
  | exclusive_minimum (v : F64)
  | exclusive_maximum (v : F64)
  | multiple_of (v : F64)
  | gen (g : GenOp)

/-- Operation application for NumberDataSchemaBuilder. -/
def applyNumberOp : NumberOp → NumberDataSchemaBuilder → NumberDataSchemaBuilder
  | .minimum v, b => b.minimum_set v
  | .maximum v, b => b.maximum_set v
  | .exclusive_minimum v, b => b.exclusive_minimum_set v
  | .exclusive_maximum v, b => b.exclusive_maximum_set v
  | .multiple_of v, b => b.multiple_of_set v
  | .gen g, b => { b with inner := applyGen g b.inner }

/-- The chainable operations on an IntegerDataSchemaBuilder. -/
inductive IntegerOp : Type where
  | minimum (v : Int)
  | maximum (v : Int)
  | exclusive_minimum (v : Int)
  | exclusive_maximum (v : Int)
  | multiple_of (v : PNat)
  | gen (g : GenOp)

/-- Operation application for IntegerDataSchemaBuilder. -/
def applyIntegerOp : IntegerOp → IntegerDataSchemaBuilder → IntegerDataSchemaBuilder
  | .minimum v, b => b.minimum_set v
  | .maximum v, b => b.maximum_set v
  | .exclusive_minimum v, b => b.exclusive_minimum_set v
  | .exclusive_maximum v, b => b.exclusive_maximum_set v
  | .multiple_of v, b => b.multiple_of_set v
  | .gen g, b => { b with inner := applyGen g b.inner }

/-- The chainable operations on an ObjectDataSchemaBuilder. -/
inductive ObjectOp : Type where
  | property (name : String) (required : Bool) (child : UncheckedDataSchema)
  | gen (g : GenOp)

/-- Operation application for ObjectDataSchemaBuilder. -/
def applyObjectOp : ObjectOp → ObjectDataSchemaBuilder → ObjectDataSchemaBuilder
  | .property name req child, b => b.property name req child
  | .gen g, b => { b with inner := applyGen g b.inner }

/-- The chainable operations on a StringDataSchemaBuilder. -/
inductive StringOp : Type where
  | min_length (n : Nat)
  | max_length (n : Nat)
  | pattern (s : String)
  | content_encoding (s : String)
  | content_media_type (s : String)
  | gen (g : GenOp)

/-- Operation application for StringDataSchemaBuilder. -/
def applyStringOp : StringOp → StringDataSchemaBuilder → StringDataSchemaBuilder
  | .min_length n, b => b.min_length_set n
  | .max_length n, b => b.max_length_set n
  | .pattern s, b => b.pattern_set s
  | .content_encoding s, b => b.content_encoding_set s
  | .content_media_type s, b => b.content_media_type_set s
  | .gen g, b => { b with inner := applyGen g b.inner }

/-- The chainable operations on an EnumDataSchemaBuilder: appending another
enumeration literal and the delegated generic setters. -/
inductive EnumOp : Type where
  | enumeration (v : Value)
  | gen (g : GenOp)

/-- Operation application for EnumDataSchemaBuilder. -/
def applyEnumOp : EnumOp → EnumDataSchemaBuilder → EnumDataSchemaBuilder
  | .enumeration v, b => b.enumeration v
  | .gen g, b => { b with inner := applyGen g b.inner }

/-- The chainable operations on a OneOfDataSchemaBuilder. -/
inductive OneOfOp : Type where
  | one_of (child : UncheckedDataSchema)
  | gen (g : GenOp)

/-- Operation application for OneOfDataSchemaBuilder. -/
def applyOneOfOp : OneOfOp → OneOfDataSchemaBuilder → OneOfDataSchemaBuilder
  | .one_of child, b => b.one_of child
  | .gen g, b => { b with inner := applyGen g b.inner }

/-- The Extended-phase generic builders reachable through the public API:
DataSchemaBuilder::empty/default plus any extension and finish_extend calls
(all identities on the embedded fields) followed by any chain of generic
setters. Child schemas passed to container operations are quantified over
arbitrary unchecked values, a superset of the schemas the API itself can
build, so every theorem over these predicates covers all API-reachable
states. -/
inductive ReachExt : DataSchemaBuilder → Prop where
  | base : ReachExt DataSchemaBuilder.defaultE
  | gen (g : GenOp) {b : DataSchemaBuilder} : ReachExt b → ReachExt (applyGen g b)

/-- Reachable StatelessDataSchemaBuilder states: bool() or null() on a
reachable Extended builder, then any chain of operations. -/
inductive ReachStateless : StatelessDataSchemaBuilder → Prop where
  | bool {b} : ReachExt b → ReachStateless b.bool
  | null {b} : ReachExt b → ReachStateless b.null
  | op (o : StatelessOp) {s} : ReachStateless s → ReachStateless (applyStatelessOp o s)

/-- Reachable TupleDataSchemaBuilder states. -/
inductive ReachTuple : TupleDataSchemaBuilder → Prop where
  | tuple {b} : ReachExt b → ReachTuple b.tuple
  | op (o : TupleOp) {s} : ReachTuple s → ReachTuple (applyTupleOp o s)

/-- Reachable VecDataSchemaBuilder states. -/
inductive ReachVec : VecDataSchemaBuilder → Prop where
  | vec {b} : ReachExt b → ReachVec b.vec
  | op (o : VecOp) {s} : ReachVec s → ReachVec (applyVecOp o s)

/-- Reachable NumberDataSchemaBuilder states. -/
inductive ReachNumber : NumberDataSchemaBuilder → Prop where
  | number {b} : ReachExt b → ReachNumber b.number
  | op (o : NumberOp) {s} : ReachNumber s → ReachNumber (applyNumberOp o s)

/-- Reachable IntegerDataSchemaBuilder states. -/
inductive ReachInteger : IntegerDataSchemaBuilder → Prop where
  | integer {b} : ReachExt b → ReachInteger b.integer
  | op (o : IntegerOp) {s} : ReachInteger s → ReachInteger (applyIntegerOp o s)

/-- Reachable ObjectDataSchemaBuilder states. -/
inductive ReachObject : ObjectDataSchemaBuilder → Prop where
  | object {b} : ReachExt b → ReachObject b.object
  | op (o : ObjectOp) {s} : ReachObject s → ReachObject (applyObjectOp o s)

/-- Reachable StringDataSchemaBuilder states. -/
inductive ReachString : StringDataSchemaBuilder → Prop where
  | string {b} : ReachExt b → ReachString b.string
  | op (o : StringOp) {s} : ReachString s → ReachString (applyStringOp o s)

/-- Reachable EnumDataSchemaBuilder states: first enumeration call on a
reachable Extended builder, then more operations. -/
inductive ReachEnum : EnumDataSchemaBuilder → Prop where
  | start {b} (v : Value) : ReachExt b → ReachEnum (b.enumeration v)
  | op (o : EnumOp) {s} : ReachEnum s → ReachEnum (applyEnumOp o s)

/-- Reachable OneOfDataSchemaBuilder states. -/
inductive ReachOneOf : OneOfDataSchemaBuilder → Prop where
  | start {b} (child : UncheckedDataSchema) : ReachExt b → ReachOneOf (b.one_of child)
  | op (o : OneOfOp) {s} : ReachOneOf s → ReachOneOf (applyOneOfOp o s)

/-- Reachable ReadOnly-wrapped stateless states: read_only() on a reachable
stateless builder, constant() on a reachable Extended builder, or any
delegated operation on a reachable wrapped state (lines 2123, 2204, 2269). -/
inductive ReachROStateless : ReadOnly StatelessDataSchemaBuilder → Prop where
  | wrap {s} : ReachStateless s → ReachROStateless s.read_only
  | constant {b} (v : Value) : ReachExt b → ReachROStateless (b.constant v)
  | op (o : StatelessOp) {w} : ReachROStateless w → ReachROStateless ⟨applyStatelessOp o w.inner⟩

/-- Reachable WriteOnly-wrapped stateless states. -/
inductive ReachWOStateless : WriteOnly StatelessDataSchemaBuilder → Prop where
  | wrap {s} : ReachStateless s → ReachWOStateless s.write_only
  | op (o : StatelessOp) {w} : ReachWOStateless w → ReachWOStateless ⟨applyStatelessOp o w.inner⟩

/-- Reachable ReadOnly-wrapped tuple states. -/
inductive ReachROTuple : ReadOnly TupleDataSchemaBuilder → Prop where
  | wrap {s} : ReachTuple s → ReachROTuple s.read_only
  | op (o : TupleOp) {w} : ReachROTuple w → ReachROTuple ⟨applyTupleOp o w.inner⟩

/-- Reachable WriteOnly-wrapped tuple states. -/
inductive ReachWOTuple : WriteOnly TupleDataSchemaBuilder → Prop where
  | wrap {s} : ReachTuple s → ReachWOTuple s.write_only
  | op (o : TupleOp) {w} : ReachWOTuple w → ReachWOTuple ⟨applyTupleOp o w.inner⟩

/-- Reachable ReadOnly-wrapped vec states. -/
inductive ReachROVec : ReadOnly VecDataSchemaBuilder → Prop where
  | wrap {s} : ReachVec s → ReachROVec s.read_only
  | op (o : VecOp) {w} : ReachROVec w → ReachROVec ⟨applyVecOp o w.inner⟩

/-- Reachable WriteOnly-wrapped vec states. -/
inductive ReachWOVec : WriteOnly VecDataSchemaBuilder → Prop where
  | wrap {s} : ReachVec s → ReachWOVec s.write_only
  | op (o : VecOp) {w} : ReachWOVec w → ReachWOVec ⟨applyVecOp o w.inner⟩

/-- Reachable ReadOnly-wrapped number states. -/
inductive ReachRONumber : ReadOnly NumberDataSchemaBuilder → Prop where
  | wrap {s} : ReachNumber s → ReachRONumber s.read_only
  | op (o : NumberOp) {w} : ReachRONumber w → ReachRONumber ⟨applyNumberOp o w.inner⟩

/-- Reachable WriteOnly-wrapped number states. -/
inductive ReachWONumber : WriteOnly NumberDataSchemaBuilder → Prop where
  | wrap {s} : ReachNumber s → ReachWONumber s.write_only
  | op (o : NumberOp) {w} : ReachWONumber w → ReachWONumber ⟨applyNumberOp o w.inner⟩

/-- Reachable ReadOnly-wrapped integer states. -/
inductive ReachROInteger : ReadOnly IntegerDataSchemaBuilder → Prop where
  | wrap {s} : ReachInteger s → ReachROInteger s.read_only
  | op (o : IntegerOp) {w} : ReachROInteger w → ReachROInteger ⟨applyIntegerOp o w.inner⟩

/-- Reachable WriteOnly-wrapped integer states. -/
inductive ReachWOInteger : WriteOnly IntegerDataSchemaBuilder → Prop where
  | wrap {s} : ReachInteger s → ReachWOInteger s.write_only
  | op (o : IntegerOp) {w} : ReachWOInteger w → ReachWOInteger ⟨applyIntegerOp o w.inner⟩

/-- Reachable ReadOnly-wrapped object states. -/
inductive ReachROObject : ReadOnly ObjectDataSchemaBuilder → Prop where
  | wrap {s} : ReachObject s → ReachROObject s.read_only
  | op (o : ObjectOp) {w} : ReachROObject w → ReachROObject ⟨applyObjectOp o w.inner⟩

/-- Reachable WriteOnly-wrapped object states. -/
inductive ReachWOObject : WriteOnly ObjectDataSchemaBuilder → Prop where
  | wrap {s} : ReachObject s → ReachWOObject s.write_only
  | op (o : ObjectOp) {w} : ReachWOObject w → ReachWOObject ⟨applyObjectOp o w.inner⟩

/-- Reachable ReadOnly-wrapped string states. -/
inductive ReachROString : ReadOnly StringDataSchemaBuilder → Prop where
  | wrap {s} : ReachString s → ReachROString s.read_only
  | op (o : StringOp) {w} : ReachROString w → ReachROString ⟨applyStringOp o w.inner⟩

/-- Reachable WriteOnly-wrapped string states. -/
inductive ReachWOString : WriteOnly StringDataSchemaBuilder → Prop where
  | wrap {s} : ReachString s → ReachWOString s.write_only
  | op (o : StringOp) {w} : ReachWOString w → ReachWOString ⟨applyStringOp o w.inner⟩

/-- Reachable ReadOnly-wrapped enum states (read_only then further
enumeration calls or generic setters, per lines 2443-2456). -/
inductive ReachROEnum : ReadOnly EnumDataSchemaBuilder → Prop where
  | wrap {s} : ReachEnum s → ReachROEnum s.read_only
  | op (o : EnumOp) {w} : ReachROEnum w → ReachROEnum ⟨applyEnumOp o w.inner⟩

/-- Reachable WriteOnly-wrapped enum states. -/
inductive ReachWOEnum : WriteOnly EnumDataSchemaBuilder → Prop where
  | wrap {s} : ReachEnum s → ReachWOEnum s.write_only
  | op (o : EnumOp) {w} : ReachWOEnum w → ReachWOEnum ⟨applyEnumOp o w.inner⟩

/-- The unchecked schema nodes producible by the public builder API: some
reachable terminal state (plain, ReadOnly-wrapped or WriteOnly-wrapped; no
wrapper exists for OneOf since impl_rw_data_schema does not cover it)
converted through its From impl. -/
inductive ReachableUnchecked : UncheckedDataSchema → Prop where
  | stateless {s} : ReachStateless s → ReachableUnchecked s.toUnchecked
  | tuple {s} : ReachTuple s → ReachableUnchecked s.toUnchecked
  | vec {s} : ReachVec s → ReachableUnchecked s.toUnchecked
  | number {s} : ReachNumber s → ReachableUnchecked s.toUnchecked
  | integer {s} : ReachInteger s → ReachableUnchecked s.toUnchecked
  | object {s} : ReachObject s → ReachableUnchecked s.toUnchecked
  | string {s} : ReachString s → ReachableUnchecked s.toUnchecked
  | enum {s} : ReachEnum s → ReachableUnchecked s.toUnchecked
  | oneOf {s} : ReachOneOf s → ReachableUnchecked s.toUnchecked
  | roStateless {w} : ReachROStateless w → ReachableUnchecked (readOnlyUnchecked w.inner.toUnchecked)
  | roTuple {w} : ReachROTuple w → ReachableUnchecked (readOnlyUnchecked w.inner.toUnchecked)
  | roVec {w} : ReachROVec w → ReachableUnchecked (readOnlyUnchecked w.inner.toUnchecked)
  | roNumber {w} : ReachRONumber w → ReachableUnchecked (readOnlyUnchecked w.inner.toUnchecked)
  | roInteger {w} : ReachROInteger w → ReachableUnchecked (readOnlyUnchecked w.inner.toUnchecked)
  | roObject {w} : ReachROObject w → ReachableUnchecked (readOnlyUnchecked w.inner.toUnchecked)
  | roString {w} : ReachROString w → ReachableUnchecked (readOnlyUnchecked w.inner.toUnchecked)
  | roEnum {w} : ReachROEnum w → ReachableUnchecked (readOnlyUnchecked w.inner.toUnchecked)
  | woStateless {w} : ReachWOStateless w → ReachableUnchecked (writeOnlyUnchecked w.inner.toUnchecked)
  | woTuple {w} : ReachWOTuple w → ReachableUnchecked (writeOnlyUnchecked w.inner.toUnchecked)
  | woVec {w} : ReachWOVec w → ReachableUnchecked (writeOnlyUnchecked w.inner.toUnchecked)
  | woNumber {w} : ReachWONumber w → ReachableUnchecked (writeOnlyUnchecked w.inner.toUnchecked)
  | woInteger {w} : ReachWOInteger w → ReachableUnchecked (writeOnlyUnchecked w.inner.toUnchecked)
  | woObject {w} : ReachWOObject w → ReachableUnchecked (writeOnlyUnchecked w.inner.toUnchecked)
  | woString {w} : ReachWOString w → ReachableUnchecked (writeOnlyUnchecked w.inner.toUnchecked)
  | woEnum {w} : ReachWOEnum w → ReachableUnchecked (writeOnlyUnchecked w.inner.toUnchecked)

theorem applyGen_read_only (g : GenOp) (b : DataSchemaBuilder) :
    (applyGen g b).base.read_only = b.base.read_only := by
  cases g <;> rfl

theorem applyGen_write_only (g : GenOp) (b : DataSchemaBuilder) :
    (applyGen g b).base.write_only = b.base.write_only := by
  cases g <;> rfl

theorem reachExt_flags {b : DataSchemaBuilder} (h : ReachExt b) :
    b.base.read_only = false ∧ b.base.write_only = false := by
  induction h with
  | base => exact ⟨rfl, rfl⟩
  | gen g _ ih =>
    rw [applyGen_read_only, applyGen_write_only]
    exact ih

theorem reachStateless_flags {s : StatelessDataSchemaBuilder} (h : ReachStateless s) :
    s.inner.base.read_only = false ∧ s.inner.base.write_only = false := by
  induction h with
  | bool hb => exact reachExt_flags hb
  | null hb => exact reachExt_flags hb
  | op o _ ih =>
    cases o with
    | gen g =>
      simp only [applyStatelessOp, applyGen_read_only, applyGen_write_only]
      exact ih

theorem reachTuple_flags {s : TupleDataSchemaBuilder} (h : ReachTuple s) :
    s.inner.base.read_only = false ∧ s.inner.base.write_only = false := by
  induction h with
  | tuple hb => exact reachExt_flags hb
  | op o _ ih =>
    cases o with
    | append child => exact ih
    | gen g =>
      simp only [applyTupleOp, applyGen_read_only, applyGen_write_only]
      exact ih

theorem reachVec_flags {s : VecDataSchemaBuilder} (h : ReachVec s) :
    s.inner.base.read_only = false ∧ s.inner.base.write_only = false := by
  induction h with
  | vec hb => exact reachExt_flags hb
  | op o _ ih =>
    cases o with
    | min_items n => exact ih
    | max_items n => exact ih
    | set_item child => exact ih
    | gen g =>
      simp only [applyVecOp, applyGen_read_only, applyGen_write_only]
      exact ih

theorem reachNumber_flags {s : NumberDataSchemaBuilder} (h : ReachNumber s) :
    s.inner.base.read_only = false ∧ s.inner.base.write_only = false := by
  induction h with
  | number hb => exact reachExt_flags hb
  | op o _ ih =>
    cases o with
    | minimum v => exact ih
    | maximum v => exact ih
    | exclusive_minimum v => exact ih
    | exclusive_maximum v => exact ih
    | multiple_of v => exact ih
    | gen g =>
      simp only [applyNumberOp, applyGen_read_only, applyGen_write_only]
      exact ih

theorem reachInteger_flags {s : IntegerDataSchemaBuilder} (h : ReachInteger s) :
    s.inner.base.read_only = false ∧ s.inner.base.write_only = false := by
  induction h with
  | integer hb => exact reachExt_flags hb
  | op o _ ih =>
    cases o with
    | minimum v => exact ih
    | maximum v => exact ih
    | exclusive_minimum v => exact ih
    | exclusive_maximum v => exact ih
    | multiple_of v => exact ih
    | gen g =>
      simp only [applyIntegerOp, applyGen_read_only, applyGen_write_only]
      exact ih

theorem reachObject_flags {s : ObjectDataSchemaBuilder} (h : ReachObject s) :
    s.inner.base.read_only = false ∧ s.inner.base.write_only = false := by
  induction h with
  | object hb => exact reachExt_flags hb
  | op o _ ih =>
    cases o with
    | property name req child =>
      simp only [applyObjectOp, ObjectDataSchemaBuilder.property]
      split <;> exact ih
    | gen g =>
      simp only [applyObjectOp, applyGen_read_only, applyGen_write_only]
      exact ih

theorem reachString_flags {s : StringDataSchemaBuilder} (h : ReachString s) :
    s.inner.base.read_only = false ∧ s.inner.base.write_only = false := by
  induction h with
  | string hb => exact reachExt_flags hb
  | op o _ ih =>
    cases o with
    | min_length n => exact ih
    | max_length n => exact ih
    | pattern s2 => exact ih
    | content_encoding s2 => exact ih
    | content_media_type s2 => exact ih
    | gen g =>
      simp only [applyStringOp, applyGen_read_only, applyGen_write_only]
      exact ih

theorem reachEnum_flags {s : EnumDataSchemaBuilder} (h : ReachEnum s) :
    s.inner.base.read_only = false ∧ s.inner.base.write_only = false := by
  induction h with
  | start v hb =>
    simpa only [DataSchemaBuilder.enumeration] using reachExt_flags hb
  | op o _ ih =>
    cases o with
    | enumeration v => exact ih
    | gen g =>
      simp only [applyEnumOp, applyGen_read_only, applyGen_write_only]
      exact ih

theorem reachOneOf_flags {s : OneOfDataSchemaBuilder} (h : ReachOneOf s) :
    s.inner.base.read_only = false ∧ s.inner.base.write_only = false := by
  induction h with
  | start child hb =>
    simpa only [DataSchemaBuilder.one_of] using reachExt_flags hb
  | op o _ ih =>
    cases o with
    | one_of child => exact ih
    | gen g =>
      simp only [applyOneOfOp, applyGen_read_only, applyGen_write_only]
      exact ih

theorem reachROStateless_wo {w : ReadOnly StatelessDataSchemaBuilder}
    (h : ReachROStateless w) : w.inner.inner.base.write_only = false := by
  induction h with
  | wrap hs => exact (reachStateless_flags hs).2
  | constant v hb => exact (reachExt_flags hb).2
  | op o _ ih =>
    cases o with
    | gen g =>
      simp only [applyStatelessOp, applyGen_write_only]
      exact ih

theorem reachROTuple_wo {w : ReadOnly TupleDataSchemaBuilder}
    (h : ReachROTuple w) : w.inner.inner.base.write_only = false := by
  induction h with
  | wrap hs => exact (reachTuple_flags hs).2
  | op o _ ih =>
    cases o with
    | append child => exact ih
    | gen g =>
      simp only [applyTupleOp, applyGen_write_only]
      exact ih

theorem reachROVec_wo {w : ReadOnly VecDataSchemaBuilder}
    (h : ReachROVec w) : w.inner.inner.base.write_only = false := by
  induction h with
  | wrap hs => exact (reachVec_flags hs).2
  | op o _ ih =>
    cases o with
    | min_items n => exact ih
    | max_items n => exact ih
    | set_item child => exact ih
    | gen g =>
      simp only [applyVecOp, applyGen_write_only]
      exact ih

theorem reachRONumber_wo {w : ReadOnly NumberDataSchemaBuilder}
    (h : ReachRONumber w) : w.inner.inner.base.write_only = false := by
  induction h with
  | wrap hs => exact (reachNumber_flags hs).2
  | op o _ ih =>
    cases o with
    | minimum v => exact ih
    | maximum v => exact ih
    | exclusive_minimum v => exact ih
    | exclusive_maximum v => exact ih
    | multiple_of v => exact ih
    | gen g =>
      simp only [applyNumberOp, applyGen_write_only]
      exact ih

theorem reachROInteger_wo {w : ReadOnly IntegerDataSchemaBuilder}
    (h : ReachROInteger w) : w.inner.inner.base.write_only = false := by
  induction h with
  | wrap hs => exact (reachInteger_flags hs).2
  | op o _ ih =>
    cases o with
    | minimum v => exact ih
    | maximum v => exact ih
    | exclusive_minimum v => exact ih
    | exclusive_maximum v => exact ih
    | multiple_of v => exact ih
    | gen g =>
      simp only [applyIntegerOp, applyGen_write_only]
      exact ih

theorem reachROObject_wo {w : ReadOnly ObjectDataSchemaBuilder}
    (h : ReachROObject w) : w.inner.inner.base.write_only = false := by
  induction h with
  | wrap hs => exact (reachObject_flags hs).2
  | op o _ ih =>
    cases o with
    | property name req child =>
      simp only [applyObjectOp, ObjectDataSchemaBuilder.property]
      split <;> exact ih
    | gen g =>
      simp only [applyObjectOp, applyGen_write_only]
      exact ih

theorem reachROString_wo {w : ReadOnly StringDataSchemaBuilder}
    (h : ReachROString w) : w.inner.inner.base.write_only = false := by
  induction h with
  | wrap hs => exact (reachString_flags hs).2
  | op o _ ih =>
    cases o with
    | min_length n => exact ih
    | max_length n => exact ih
    | pattern s2 => exact ih
    | content_encoding s2 => exact ih
    | content_media_type s2 => exact ih
    | gen g =>
      simp only [applyStringOp, applyGen_write_only]
      exact ih

theorem reachROEnum_wo {w : ReadOnly EnumDataSchemaBuilder}
    (h : ReachROEnum w) : w.inner.inner.base.write_only = false := by
  induction h with
  | wrap hs => exact (reachEnum_flags hs).2
  | op o _ ih =>
    cases o with
    | enumeration v =>
      simp only [applyEnumOp, EnumDataSchemaBuilder.enumeration]
      exact ih
    | gen g =>
      simp only [applyEnumOp, applyGen_write_only]
      exact ih

/-- C2: for every unchecked schema node produced by any terminal builder
state (the nine specialized states, optionally wrapped in ReadOnly or
WriteOnly), at most one of subtype, one_of and enumeration is populated, and
the populated one matches the builder family: subtype-specialized states
clear one_of and enumeration, enumeration states clear subtype and one_of,
union states clear subtype and enumeration. -/
theorem c2_subtype_oneof_enum_exclusive (t : TerminalBuilder) :
    populatedCount t.toUnchecked ≤ 1 ∧ familyExclusion t := by
  have main : ∀ p : PlainTerminal,
      populatedCount p.toUnchecked ≤ 1
      ∧ populatedCount (readOnlyUnchecked p.toUnchecked) ≤ 1
      ∧ populatedCount (writeOnlyUnchecked p.toUnchecked) ≤ 1 := by
    intro p
    cases p with
    | stateless b =>
      cases hty : b.ty <;>
        simp [populatedCount, PlainTerminal.toUnchecked,
          StatelessDataSchemaBuilder.toUnchecked, readOnlyUnchecked,
          writeOnlyUnchecked, hty, UncheckedDataSchema.subtype,
          UncheckedDataSchema.one_of, UncheckedDataSchema.enumeration]
    | tuple b =>
      simp [populatedCount, PlainTerminal.toUnchecked,
        TupleDataSchemaBuilder.toUnchecked, readOnlyUnchecked, writeOnlyUnchecked,
        UncheckedDataSchema.subtype, UncheckedDataSchema.one_of,
        UncheckedDataSchema.enumeration]
    | vec b =>
      simp [populatedCount, PlainTerminal.toUnchecked,
        VecDataSchemaBuilder.toUnchecked, readOnlyUnchecked, writeOnlyUnchecked,
        UncheckedDataSchema.subtype, UncheckedDataSchema.one_of,
        UncheckedDataSchema.enumeration]
    | number b =>
      simp [populatedCount, PlainTerminal.toUnchecked,
        NumberDataSchemaBuilder.toUnchecked, readOnlyUnchecked, writeOnlyUnchecked,
        UncheckedDataSchema.subtype, UncheckedDataSchema.one_of,
        UncheckedDataSchema.enumeration]
    | integer b =>
      simp [populatedCount, PlainTerminal.toUnchecked,
        IntegerDataSchemaBuilder.toUnchecked, readOnlyUnchecked, writeOnlyUnchecked,
        UncheckedDataSchema.subtype, UncheckedDataSchema.one_of,
        UncheckedDataSchema.enumeration]
    | object b =>
      simp [populatedCount, PlainTerminal.toUnchecked,
        ObjectDataSchemaBuilder.toUnchecked, readOnlyUnchecked, writeOnlyUnchecked,
        UncheckedDataSchema.subtype, UncheckedDataSchema.one_of,
        UncheckedDataSchema.enumeration]
    | string b =>
      simp [populatedCount, PlainTerminal.toUnchecked,
        StringDataSchemaBuilder.toUnchecked, readOnlyUnchecked, writeOnlyUnchecked,
        UncheckedDataSchema.subtype, UncheckedDataSchema.one_of,
        UncheckedDataSchema.enumeration]
    | enum b =>
      simp [populatedCount, PlainTerminal.toUnchecked,
        EnumDataSchemaBuilder.toUnchecked, readOnlyUnchecked, writeOnlyUnchecked,
        UncheckedDataSchema.subtype, UncheckedDataSchema.one_of,
        UncheckedDataSchema.enumeration]
    | oneOf b =>
      simp [populatedCount, PlainTerminal.toUnchecked,
        OneOfDataSchemaBuilder.toUnchecked, readOnlyUnchecked, writeOnlyUnchecked,
        UncheckedDataSchema.subtype, UncheckedDataSchema.one_of,
        UncheckedDataSchema.enumeration]
  have fam : familyExclusion t := by
    cases t with
    | plain p | readOnly p | writeOnly p =>
      cases p with
      | stateless b =>
        simp [familyExclusion, TerminalBuilder.toUnchecked, PlainTerminal.toUnchecked,
          StatelessDataSchemaBuilder.toUnchecked, readOnlyUnchecked, writeOnlyUnchecked,
          UncheckedDataSchema.subtype, UncheckedDataSchema.one_of,
          UncheckedDataSchema.enumeration]
      | tuple b =>
        simp [familyExclusion, TerminalBuilder.toUnchecked, PlainTerminal.toUnchecked,
          TupleDataSchemaBuilder.toUnchecked, readOnlyUnchecked, writeOnlyUnchecked,
          UncheckedDataSchema.subtype, UncheckedDataSchema.one_of,
          UncheckedDataSchema.enumeration]
      | vec b =>
        simp [familyExclusion, TerminalBuilder.toUnchecked, PlainTerminal.toUnchecked,
          VecDataSchemaBuilder.toUnchecked, readOnlyUnchecked, writeOnlyUnchecked,
          UncheckedDataSchema.subtype, UncheckedDataSchema.one_of,
          UncheckedDataSchema.enumeration]
      | number b =>
        simp [familyExclusion, TerminalBuilder.toUnchecked, PlainTerminal.toUnchecked,
          NumberDataSchemaBuilder.toUnchecked, readOnlyUnchecked, writeOnlyUnchecked,
          UncheckedDataSchema.subtype, UncheckedDataSchema.one_of,
          UncheckedDataSchema.enumeration]
      | integer b =>
        simp [familyExclusion, TerminalBuilder.toUnchecked, PlainTerminal.toUnchecked,
          IntegerDataSchemaBuilder.toUnchecked, readOnlyUnchecked, writeOnlyUnchecked,
          UncheckedDataSchema.subtype, UncheckedDataSchema.one_of,
          UncheckedDataSchema.enumeration]
      | object b =>
        simp [familyExclusion, TerminalBuilder.toUnchecked, PlainTerminal.toUnchecked,
          ObjectDataSchemaBuilder.toUnchecked, readOnlyUnchecked, writeOnlyUnchecked,
          UncheckedDataSchema.subtype, UncheckedDataSchema.one_of,
          UncheckedDataSchema.enumeration]
      | string b =>
        simp [familyExclusion, TerminalBuilder.toUnchecked, PlainTerminal.toUnchecked,
          StringDataSchemaBuilder.toUnchecked, readOnlyUnchecked, writeOnlyUnchecked,
          UncheckedDataSchema.subtype, UncheckedDataSchema.one_of,
          UncheckedDataSchema.enumeration]
      | enum b =>
        simp [familyExclusion, TerminalBuilder.toUnchecked, PlainTerminal.toUnchecked,
          EnumDataSchemaBuilder.toUnchecked, readOnlyUnchecked, writeOnlyUnchecked,
          UncheckedDataSchema.subtype, UncheckedDataSchema.one_of,
          UncheckedDataSchema.enumeration]
      | oneOf b =>
        simp [familyExclusion, TerminalBuilder.toUnchecked, PlainTerminal.toUnchecked,
          OneOfDataSchemaBuilder.toUnchecked, readOnlyUnchecked, writeOnlyUnchecked,
          UncheckedDataSchema.subtype, UncheckedDataSchema.one_of,
          UncheckedDataSchema.enumeration]
  refine ⟨?_, fam⟩
  cases t with
  | plain p => exact (main p).1
  | readOnly p => exact (main p).2.1
  | writeOnly p => exact (main p).2.2

/-- C3: every unchecked schema node reachable through the public builder API
has at most one of the read_only and write_only flags set: the two flags are
never both true. -/
theorem c3_read_write_exclusive {u : UncheckedDataSchema}
    (h : ReachableUnchecked u) :
    ¬(u.read_only = true ∧ u.write_only = true) := by
  cases h with
  | stateless hs =>
    rintro ⟨h1, _⟩
    simp [StatelessDataSchemaBuilder.toUnchecked, UncheckedDataSchema.read_only,
      (reachStateless_flags hs).1] at h1
  | tuple hs =>
    rintro ⟨h1, _⟩
    simp [TupleDataSchemaBuilder.toUnchecked, UncheckedDataSchema.read_only,
      (reachTuple_flags hs).1] at h1
  | vec hs =>
    rintro ⟨h1, _⟩
    simp [VecDataSchemaBuilder.toUnchecked, UncheckedDataSchema.read_only,
      (reachVec_flags hs).1] at h1
  | number hs =>
    rintro ⟨h1, _⟩
    simp [NumberDataSchemaBuilder.toUnchecked, UncheckedDataSchema.read_only,
      (reachNumber_flags hs).1] at h1
  | integer hs =>
    rintro ⟨h1, _⟩
    simp [IntegerDataSchemaBuilder.toUnchecked, UncheckedDataSchema.read_only,
      (reachInteger_flags hs).1] at h1
  | object hs =>
    rintro ⟨h1, _⟩
    simp [ObjectDataSchemaBuilder.toUnchecked, UncheckedDataSchema.read_only,
      (reachObject_flags hs).1] at h1
  | string hs =>
    rintro ⟨h1, _⟩
    simp [StringDataSchemaBuilder.toUnchecked, UncheckedDataSchema.read_only,
      (reachString_flags hs).1] at h1
  | enum hs =>
    rintro ⟨h1, _⟩
    simp [EnumDataSchemaBuilder.toUnchecked, UncheckedDataSchema.read_only,
      (reachEnum_flags hs).1] at h1
  | oneOf hs =>
    rintro ⟨h1, _⟩
    simp [OneOfDataSchemaBuilder.toUnchecked, UncheckedDataSchema.read_only,
      (reachOneOf_flags hs).1] at h1
  | roStateless hw =>
    rintro ⟨_, h2⟩
    simp [StatelessDataSchemaBuilder.toUnchecked, readOnlyUnchecked,
      UncheckedDataSchema.write_only, reachROStateless_wo hw] at h2
  | roTuple hw =>
    rintro ⟨_, h2⟩
    simp [TupleDataSchemaBuilder.toUnchecked, readOnlyUnchecked,
      UncheckedDataSchema.write_only, reachROTuple_wo hw] at h2
  | roVec hw =>
    rintro ⟨_, h2⟩
    simp [VecDataSchemaBuilder.toUnchecked, readOnlyUnchecked,
      UncheckedDataSchema.write_only, reachROVec_wo hw] at h2
  | roNumber hw =>
    rintro ⟨_, h2⟩
    simp [NumberDataSchemaBuilder.toUnchecked, readOnlyUnchecked,
      UncheckedDataSchema.write_only, reachRONumber_wo hw] at h2
  | roInteger hw =>
    rintro ⟨_, h2⟩
    simp [IntegerDataSchemaBuilder.toUnchecked, readOnlyUnchecked,
      UncheckedDataSchema.write_only, reachROInteger_wo hw] at h2
  | roObject hw =>
    rintro ⟨_, h2⟩
    simp [ObjectDataSchemaBuilder.toUnchecked, readOnlyUnchecked,
      UncheckedDataSchema.write_only, reachROObject_wo hw] at h2
  | roString hw =>
    rintro ⟨_, h2⟩
    simp [StringDataSchemaBuilder.toUnchecked, readOnlyUnchecked,
      UncheckedDataSchema.write_only, reachROString_wo hw] at h2
  | roEnum hw =>
    rintro ⟨_, h2⟩
    simp [EnumDataSchemaBuilder.toUnchecked, readOnlyUnchecked,
      UncheckedDataSchema.write_only, reachROEnum_wo hw] at h2
  | woStateless hw =>
    rintro ⟨h1, _⟩
    simp [StatelessDataSchemaBuilder.toUnchecked, writeOnlyUnchecked,
      UncheckedDataSchema.read_only] at h1
  | woTuple hw =>
    rintro ⟨h1, _⟩
    simp [TupleDataSchemaBuilder.toUnchecked, writeOnlyUnchecked,
      UncheckedDataSchema.read_only] at h1
  | woVec hw =>
    rintro ⟨h1, _⟩
    simp [VecDataSchemaBuilder.toUnchecked, writeOnlyUnchecked,
      UncheckedDataSchema.read_only] at h1
  | woNumber hw =>
    rintro ⟨h1, _⟩
    simp [NumberDataSchemaBuilder.toUnchecked, writeOnlyUnchecked,
      UncheckedDataSchema.read_only] at h1
  | woInteger hw =>
    rintro ⟨h1, _⟩
    simp [IntegerDataSchemaBuilder.toUnchecked, writeOnlyUnchecked,
      UncheckedDataSchema.read_only] at h1
  | woObject hw =>
    rintro ⟨h1, _⟩
    simp [ObjectDataSchemaBuilder.toUnchecked, writeOnlyUnchecked,
      UncheckedDataSchema.read_only] at h1
  | woString hw =>
    rintro ⟨h1, _⟩
    simp [StringDataSchemaBuilder.toUnchecked, writeOnlyUnchecked,
      UncheckedDataSchema.read_only] at h1
  | woEnum hw =>
    rintro ⟨h1, _⟩
    simp [EnumDataSchemaBuilder.toUnchecked, writeOnlyUnchecked,
      UncheckedDataSchema.read_only] at h1

/-- Witness for C3: the node built by number().read_only() is reachable and
the theorem rules out both flags being true on it. -/
theorem c3_read_write_exclusive_witness :
    ¬((readOnlyUnchecked
        (DataSchemaBuilder.defaultE.number.read_only).inner.toUnchecked).read_only = true
      ∧ (readOnlyUnchecked
        (DataSchemaBuilder.defaultE.number.read_only).inner.toUnchecked).write_only = true) :=
  c3_read_write_exclusive
    (ReachableUnchecked.roNumber (ReachRONumber.wrap (ReachNumber.number ReachExt.base)))

/-- C5: constant(V) on the extension-closed generic builder always produces a
node with constant = Some V, read_only = true, write_only = false and
subtype = None, whatever generic field setters were applied before. -/
theorem c5_constant_schema (b : DataSchemaBuilder) (v : Value) (h : ReachExt b) :
    (readOnlyUnchecked (DataSchemaBuilder.constant b v).inner.toUnchecked).constant = some v
    ∧ (readOnlyUnchecked (DataSchemaBuilder.constant b v).inner.toUnchecked).read_only = true
    ∧ (readOnlyUnchecked (DataSchemaBuilder.constant b v).inner.toUnchecked).write_only = false
    ∧ (readOnlyUnchecked (DataSchemaBuilder.constant b v).inner.toUnchecked).subtype = none := by
  have hw := (reachExt_flags h).2
  simp [DataSchemaBuilder.constant, StatelessDataSchemaBuilder.toUnchecked,
    readOnlyUnchecked, UncheckedDataSchema.constant, UncheckedDataSchema.read_only,
    UncheckedDataSchema.write_only, UncheckedDataSchema.subtype, hw]

/-- Witness for C5: constant(7) on a builder that has seen a unit and a title
setter. -/
theorem c5_constant_schema_witness :
    (readOnlyUnchecked (DataSchemaBuilder.constant
        (applyGen (.title "t") (applyGen (.unit "u") DataSchemaBuilder.defaultE))
        (.num 7)).inner.toUnchecked).constant = some (.num 7)
    ∧ (readOnlyUnchecked (DataSchemaBuilder.constant
        (applyGen (.title "t") (applyGen (.unit "u") DataSchemaBuilder.defaultE))
        (.num 7)).inner.toUnchecked).read_only = true
    ∧ (readOnlyUnchecked (DataSchemaBuilder.constant
        (applyGen (.title "t") (applyGen (.unit "u") DataSchemaBuilder.defaultE))
        (.num 7)).inner.toUnchecked).write_only = false
    ∧ (readOnlyUnchecked (DataSchemaBuilder.constant
        (applyGen (.title "t") (applyGen (.unit "u") DataSchemaBuilder.defaultE))
        (.num 7)).inner.toUnchecked).subtype = none :=
  c5_constant_schema _ _ (ReachExt.gen _ (ReachExt.gen _ ReachExt.base))

theorem check_loop_error {st : Option UncheckedDataSchemaSubtype}
    {stack : List UncheckedDataSchema} {e : Error}
    (h : subtypeStep st = .error e) : check_loop st stack = .error e := by
  rw [check_loop]
  split
  · rename_i e2 heq
    rw [h] at heq
    injection heq with h2
    rw [h2]
  · rename_i children heq
    rw [h] at heq
    simp at heq

/-- C6: the minimum/exclusive_minimum setters (and symmetrically the maximum
pair) on Number and Integer builders overwrite each other, last write wins,
recording the latest value with its Inclusive/Exclusive tag; the setters are
total functions, so no error is raised at setter time. In particular
minimum(10) followed by exclusive_maximum(5) stores minimum = Inclusive(10)
and maximum = Exclusive(5), and only the validation pass rejects the node
with InvalidMinMax. -/
theorem c6_minmax_last_write_wins :
    (∀ (b : NumberDataSchemaBuilder) (v w : F64),
      ((b.minimum_set v).exclusive_minimum_set w).minimum = some (.exclusive w)
      ∧ ((b.exclusive_minimum_set v).minimum_set w).minimum = some (.inclusive w)
      ∧ ((b.maximum_set v).exclusive_maximum_set w).maximum = some (.exclusive w)
      ∧ ((b.exclusive_maximum_set v).maximum_set w).maximum = some (.inclusive w))
    ∧ (∀ (b : IntegerDataSchemaBuilder) (v w : Int),
      ((b.minimum_set v).exclusive_minimum_set w).minimum = some (.exclusive w)
      ∧ ((b.exclusive_minimum_set v).minimum_set w).minimum = some (.inclusive w)
      ∧ ((b.maximum_set v).exclusive_maximum_set w).maximum = some (.exclusive w)
      ∧ ((b.exclusive_maximum_set v).maximum_set w).maximum = some (.inclusive w))
    ∧ (∀ b : NumberDataSchemaBuilder,
      ((b.minimum_set (.val 10)).exclusive_maximum_set (.val 5)).minimum
        = some (.inclusive (.val 10))
      ∧ ((b.minimum_set (.val 10)).exclusive_maximum_set (.val 5)).maximum
        = some (.exclusive (.val 5))
      ∧ ((b.minimum_set (.val 10)).exclusive_maximum_set (.val 5)).toUnchecked.check
        = .error .invalidMinMax) := by
  refine ⟨?_, ?_, ?_⟩
  · intro b v w
    refine ⟨rfl, rfl, rfl, rfl⟩
  · intro b v w
    refine ⟨rfl, rfl, rfl, rfl⟩
  · intro b
    refine ⟨rfl, rfl, ?_⟩
    have hbad : numberChecks
        ⟨some (.inclusive (.val 10)), some (.exclusive (.val 5)), b.multiple_of⟩
        = .error .invalidMinMax := by
      have hcmp : badCmp (minMaxPcmp F64.pcmp (.inclusive (.val 10)) (.exclusive (.val 5)))
          = true := by decide
      simp [numberChecks, Minimum.is_nan, Maximum.is_nan, Minimum.value, Maximum.value,
        F64.is_nan, hcmp]
    have hstep : subtypeStep (some (.number
        ⟨some (.inclusive (.val 10)), some (.exclusive (.val 5)), b.multiple_of⟩))
        = .error .invalidMinMax := by
      simp [subtypeStep, hbad, Except.bind]
    have hloop := @check_loop_error _ [] _ hstep
    rw [UncheckedDataSchema.check]
    simp only [NumberDataSchemaBuilder.toUnchecked, NumberDataSchemaBuilder.minimum_set,
      NumberDataSchemaBuilder.exclusive_maximum_set, UncheckedDataSchema.subtype,
      UncheckedDataSchema.one_of, check_data_schema_subtype]
    rw [hloop]
    rfl

/-- C8: a node converted from a Tuple builder always carries items as the
ordered-list variant, an empty ordered list when no children were appended,
with min_items and max_items absent; a node converted from a Vec builder
carries items as the single-shared-child variant, absent exactly when
set_item was never called (the vec specialization starts with no item and
set_item stores one). -/
theorem c8_tuple_vec_items (tb : TupleDataSchemaBuilder) (vb : VecDataSchemaBuilder)
    (b : DataSchemaBuilder) (child : UncheckedDataSchema) :
    tb.toUnchecked.subtype = some (.array (.mk (some (.vec tb.items)) none none))
    ∧ b.tuple.items = []
    ∧ vb.toUnchecked.subtype
      = some (.array (.mk (vb.item.map (fun i => .elem i)) vb.min_items vb.max_items))
    ∧ b.vec.item = none
    ∧ (vb.set_item child).item = some child := by
  refine ⟨rfl, rfl, rfl, rfl, rfl⟩

/-- C9: property("a", true, fa) followed by property("b", false, gb) on a
fresh Object builder converts to required = Some(["a"]) and a property map
holding "a" and "b" in insertion order; an Object builder without property
calls converts with absent properties and required. -/
theorem c9_object_properties (b : DataSchemaBuilder) (fa gb : UncheckedDataSchema) :
    ((b.object.property "a" true fa).property "b" false gb).toUnchecked.subtype
      = some (.object (.mk (some [("a", fa), ("b", gb)]) (some ["a"])))
    ∧ b.object.toUnchecked.subtype = some (.object (.mk none none)) := by
  constructor
  · simp [DataSchemaBuilder.object, ObjectDataSchemaBuilder.property,
      ObjectDataSchemaBuilder.toUnchecked, UncheckedDataSchema.subtype,
      collectMap, insertMap]
  · simp [DataSchemaBuilder.object, ObjectDataSchemaBuilder.toUnchecked,
      UncheckedDataSchema.subtype]

/-- C10: calling property("a", true, _) twice on an Object builder is neither
rejected nor deduplicated: the builder's required list holds "a" twice, and
the converted property map holds a single "a" entry with the schema of the
later call. -/
theorem c10_duplicate_property (b : DataSchemaBuilder) (fa fb : UncheckedDataSchema) :
    ((b.object.property "a" true fa).property "a" true fb).required = ["a", "a"]
    ∧ ((b.object.property "a" true fa).property "a" true fb).toUnchecked.subtype
      = some (.object (.mk (some [("a", fb)]) (some ["a", "a"]))) := by
  constructor
  · rfl
  · simp [DataSchemaBuilder.object, ObjectDataSchemaBuilder.property,
      ObjectDataSchemaBuilder.toUnchecked, UncheckedDataSchema.subtype,
      collectMap, insertMap]

theorem check_loop_ok_nil {st : Option UncheckedDataSchemaSubtype}
    (h : subtypeStep st = .ok []) : check_loop st [] = .ok () := by
  rw [check_loop]
  split
  · rename_i e heq
    rw [h] at heq
    simp at heq
  · rename_i children heq
    rw [h] at heq
    injection heq with h2
    subst h2
    simp [vecExtend]

theorem numberChecks_nan {n : NumberSchema}
    (h : (n.minimum.any Minimum.is_nan || n.maximum.any Maximum.is_nan) = true) :
    numberChecks n = .error .nanMinMax := by
  obtain ⟨mi, ma, mo⟩ := n
  match mi, ma with
  | some m, some mx =>
    simp [Option.any] at h
    rcases h with hm | hmx
    · simp [numberChecks, hm]
    · by_cases hm : m.is_nan = true
      · simp [numberChecks, hm]
      · simp [numberChecks, hm, hmx]
  | some m, none =>
    simp [Option.any] at h
    simp [numberChecks, h]
  | none, some mx =>
    simp [Option.any] at h
    simp [numberChecks, h]
  | none, none => simp [Option.any] at h

theorem numberChecks_invalid {n : NumberSchema} {m : Minimum F64} {mx : Maximum F64}
    (hmin : n.minimum = some m) (hmax : n.maximum = some mx)
    (hm : m.is_nan = false) (hmx : mx.is_nan = false)
    (hbad : badCmp (minMaxPcmp F64.pcmp m mx) = true) :
    numberChecks n = .error .invalidMinMax := by
  obtain ⟨mi, ma, mo⟩ := n
  simp only at hmin hmax
  subst hmin
  subst hmax
  simp [numberChecks, hm, hmx, hbad]

theorem subtypeStep_number_error {n : NumberSchema} {e : Error}
    (h : numberChecks n = .error e) :
    subtypeStep (some (.number n)) = .error e := by
  simp [subtypeStep, h, Except.bind]

theorem subtypeStep_number_multiple {n : NumberSchema}
    (h : numberChecks n = .ok ()) (h2 : multipleOfCheck n = .error .invalidMultipleOf) :
    subtypeStep (some (.number n)) = .error .invalidMultipleOf := by
  simp [subtypeStep, h, h2, Except.bind, Except.map]

theorem subtypeStep_number_ok {n : NumberSchema}
    (h : numberChecks n = .ok ()) (h2 : multipleOfCheck n = .ok ()) :
    subtypeStep (some (.number n)) = .ok [] := by
  simp [subtypeStep, h, h2, Except.bind, Except.map]

/-- C4: the validation pass on a Number subtype node: a NaN bound fails with
NanMinMax before any range comparison; both bounds present with the minimum
comparing greater than the maximum or incomparably (including the empty
boundary range Exclusive(2)/Inclusive(2) through the bound comparison) fails
with InvalidMinMax; a present multiple_of comparing less-or-equal to zero
fails with InvalidMultipleOf; otherwise the node's own checks pass. -/
theorem c4_number_validation (n : NumberSchema) :
    ((n.minimum.any Minimum.is_nan || n.maximum.any Maximum.is_nan) = true →
      check_data_schema_subtype (some (.number n)) = .error .nanMinMax)
    ∧ (∀ m mx, n.minimum = some m → n.maximum = some mx →
        m.is_nan = false → mx.is_nan = false →
        badCmp (minMaxPcmp F64.pcmp m mx) = true →
        check_data_schema_subtype (some (.number n)) = .error .invalidMinMax)
    ∧ (∀ x, numberChecks n = .ok () → n.multiple_of = some x →
        x.fle (.val 0) = true →
        check_data_schema_subtype (some (.number n)) = .error .invalidMultipleOf)
    ∧ (numberChecks n = .ok () → multipleOfCheck n = .ok () →
        check_data_schema_subtype (some (.number n)) = .ok ()) := by
  refine ⟨?_, ?_, ?_, ?_⟩
  · intro h
    exact check_loop_error (subtypeStep_number_error (numberChecks_nan h))
  · intro m mx hmin hmax hm hmx hbad
    exact check_loop_error
      (subtypeStep_number_error (numberChecks_invalid hmin hmax hm hmx hbad))
  · intro x hok hx hle
    have h2 : multipleOfCheck n = .error .invalidMultipleOf := by
      simp [multipleOfCheck, hx, hle]
    exact check_loop_error (subtypeStep_number_multiple hok h2)
  · intro hok h2
    exact check_loop_ok_nil (subtypeStep_number_ok hok h2)

/-- Witness for C4: NaN minimum gives NanMinMax (not InvalidMinMax) even with
a maximum present; the boundary range Exclusive(2)/Inclusive(2) gives
InvalidMinMax; multiple_of = 0 and multiple_of = -2 give InvalidMultipleOf;
a well-formed node passes. -/
theorem c4_number_validation_witness :
    check_data_schema_subtype (some (.number
        ⟨some (.inclusive .nan), some (.inclusive (.val 2)), none⟩))
      = .error .nanMinMax
    ∧ check_data_schema_subtype (some (.number
        ⟨some (.exclusive (.val 2)), some (.inclusive (.val 2)), none⟩))
      = .error .invalidMinMax
    ∧ check_data_schema_subtype (some (.number ⟨none, none, some (.val 0)⟩))
      = .error .invalidMultipleOf
    ∧ check_data_schema_subtype (some (.number ⟨none, none, some (.val (-2))⟩))
      = .error .invalidMultipleOf
    ∧ check_data_schema_subtype (some (.number
        ⟨some (.inclusive (.val 1)), some (.inclusive (.val 2)), some (.val 2)⟩))
      = .ok () :=
  ⟨(c4_number_validation _).1 (by decide),
   (c4_number_validation _).2.1 _ _ rfl rfl (by decide) (by decide) (by decide),
   (c4_number_validation _).2.2.1 _ rfl rfl (by decide),
   (c4_number_validation _).2.2.1 _ rfl rfl (by decide),
   (c4_number_validation _).2.2.2 rfl rfl⟩

theorem listOk_eq_all (l : List UncheckedDataSchema) : listOk l = l.all nodeOk := by
  induction l with
  | nil => rw [listOk]; rfl
  | cons x xs ih =>
    rw [listOk, ih]
    simp

theorem check_loop_ok_iff (st : Option UncheckedDataSchemaSubtype)
    (stack : List UncheckedDataSchema) :
    check_loop st stack = .ok () ↔
      (subtreeOk st = true ∧ stack.all nodeOk = true) := by
  rw [check_loop]
  split
  · rename_i e heq
    constructor
    · intro h
      simp at h
    · rintro ⟨h1, _⟩
      rw [subtreeOk] at h1
      have hown : ownOk st = false := by simp [ownOk, heq]
      rw [hown] at h1
      simp at h1
  · rename_i children heq
    have hch : children = stepChildren st := subtypeStep_ok_children heq
    have hown : ownOk st = true := by simp [ownOk, heq]
    split
    · rename_i hnil
      simp only [vecExtend] at hnil
      have hc2 : children.reverse = [] ∧ stack = [] := List.append_eq_nil.mp hnil
      have hc3 : children = [] := by
        have := hc2.1
        simpa using this
      constructor
      · intro _
        refine ⟨?_, ?_⟩
        · rw [subtreeOk, listOk_eq_all, hown, hch.symm, hc3]
          simp
        · rw [hc2.2]
          simp
      · intro _
        rfl
    · rename_i n rest hcons
      rw [check_loop_ok_iff n.subtype (vecExtend rest (n.one_of.getD []))]
      simp only [vecExtend] at hcons
      have hall : (children.all nodeOk && stack.all nodeOk)
          = (nodeOk n && rest.all nodeOk) := by
        have := congrArg (fun l => l.all nodeOk) hcons
        simpa using this
      have hnode : nodeOk n = (subtreeOk n.subtype && (n.one_of.getD []).all nodeOk) := by
        rw [nodeOk, listOk_eq_all]
      have hsubst2 : subtreeOk st = children.all nodeOk := by
        rw [subtreeOk, listOk_eq_all, hown, hch.symm]
        simp
      have key : (subtreeOk n.subtype && ((n.one_of.getD []).all nodeOk && rest.all nodeOk))
          = (children.all nodeOk && stack.all nodeOk) := by
        rw [hall, hnode, Bool.and_assoc]
      simp only [vecExtend, List.all_append, List.all_reverse]
      simp only [← Bool.and_eq_true]
      rw [key, hsubst2]
termination_by subOptSize st + schemaListSize stack
decreasing_by
  rename_i c hx1' hx2' hstep n rest hy1' hy2' hcons
  have h1 := subtypeStep_ok_size hstep
  have h2 : schemaSize n + schemaListSize rest
      = schemaListSize c + schemaListSize stack := by
    have hv : schemaListSize (vecExtend stack c)
        = schemaListSize c + schemaListSize stack := by
      simp [vecExtend, schemaListSize_append, schemaListSize_reverse]
    rw [hcons] at hv
    simp [schemaListSize] at hv
    omega
  have h3 := node_decompose n
  rw [schemaListOptSize_getD] at h3
  simp only [vecExtend, schemaListSize_append, schemaListSize_reverse,
    schemaListOptSize_getD]
  omega

theorem check_data_schema_subtype_ok_iff (st : Option UncheckedDataSchemaSubtype) :
    check_data_schema_subtype st = .ok () ↔ subtreeOk st = true := by
  rw [check_data_schema_subtype, check_loop_ok_iff]
  simp

mutual

theorem check_ok_iff (ds : UncheckedDataSchema) :
    ds.check = .ok () ↔ nodeOk ds = true := by
  rw [UncheckedDataSchema.check, nodeOk, listOk_eq_all]
  cases hc : check_data_schema_subtype ds.subtype with
  | error e =>
    have hsub : subtreeOk ds.subtype = false := by
      cases hsub2 : subtreeOk ds.subtype with
      | false => rfl
      | true =>
        have := (check_data_schema_subtype_ok_iff ds.subtype).mpr hsub2
        rw [this] at hc
        simp at hc
    rw [hsub]
    simp [Except.bind]
  | ok u =>
    cases u
    have hsub : subtreeOk ds.subtype = true :=
      (check_data_schema_subtype_ok_iff ds.subtype).mp hc
    rw [hsub]
    simp only [Except.bind, Bool.true_and]
    rw [check_one_of_ok_iff ds.one_of]
termination_by 3 * schemaSize ds
decreasing_by
  have := schemaSize_decompose ds
  omega

theorem check_one_of_ok_iff (oo : Option (List UncheckedDataSchema)) :
    check_one_of_schema oo = .ok () ↔ (oo.getD []).all nodeOk = true := by
  match oo with
  | none =>
    rw [check_one_of_schema]
    simp
  | some l =>
    rw [check_one_of_schema, checkEach_ok_iff l]
    simp
termination_by 3 * schemaListOptSize oo + 2
decreasing_by
  simp [schemaListOptSize]

theorem checkEach_ok_iff (l : List UncheckedDataSchema) :
    checkEach l = .ok () ↔ l.all nodeOk = true := by
  match l with
  | [] =>
    rw [checkEach]
    simp
  | x :: xs =>
    rw [checkEach]
    cases hx : x.check with
    | error e =>
      have hnx : nodeOk x = false := by
        cases hnx2 : nodeOk x with
        | false => rfl
        | true =>
          have := (check_ok_iff x).mpr hnx2
          rw [this] at hx
          simp at hx
      simp [Except.bind, hnx]
    | ok u =>
      cases u
      have hnx : nodeOk x = true := (check_ok_iff x).mp hx
      simp only [Except.bind]
      rw [checkEach_ok_iff xs]
      simp [hnx]
termination_by 3 * schemaListSize l + 1
decreasing_by
  · have := schemaSize_pos x
    simp [schemaListSize]
    omega
  · have := schemaSize_pos x
    simp [schemaListSize]
    omega
  · have := schemaSize_pos x
    simp [schemaListSize]
    omega

end

mutual

theorem hasBadNumber_not_nodeOk {ds : UncheckedDataSchema}
    (h : hasBadNumber ds = true) : nodeOk ds = false := by
  rw [hasBadNumber] at h
  rw [nodeOk]
  rcases Bool.or_eq_true_iff.mp h with h1 | h2
  · rw [subHasBadNumber_not_subtreeOk h1]
    simp
  · rw [listHasBadNumber_not_listOk h2]
    simp
termination_by 3 * schemaSize ds
decreasing_by
  · have := schemaSize_decompose ds
    omega
  · have := schemaSize_decompose ds
    rw [(schemaListOptSize_getD ds.one_of).symm] at this
    omega

theorem subHasBadNumber_not_subtreeOk {st : Option UncheckedDataSchemaSubtype}
    (h : subHasBadNumber st = true) : subtreeOk st = false := by
  rw [subHasBadNumber] at h
  rw [subtreeOk]
  rcases Bool.or_eq_true_iff.mp h with h1 | h2
  · have : ownOk st = false := by
      match st with
      | some (.number n) =>
        simp [numberBadHere] at h1
        exact h1
      | none => simp [numberBadHere] at h1
      | some (.array _) => simp [numberBadHere] at h1
      | some .boolean => simp [numberBadHere] at h1
      | some (.integer _) => simp [numberBadHere] at h1
      | some (.object _) => simp [numberBadHere] at h1
      | some (.string _) => simp [numberBadHere] at h1
      | some .null => simp [numberBadHere] at h1
    rw [this]
    simp
  · rw [listHasBadNumber_not_listOk h2]
    simp
termination_by 3 * subOptSize st + 2
decreasing_by
  have := stepChildren_size st
  omega

theorem listHasBadNumber_not_listOk {l : List UncheckedDataSchema}
    (h : listHasBadNumber l = true) : listOk l = false := by
  match l with
  | [] =>
    rw [listHasBadNumber] at h
    simp at h
  | x :: xs =>
    rw [listHasBadNumber] at h
    rw [listOk]
    rcases Bool.or_eq_true_iff.mp h with h1 | h2
    · rw [hasBadNumber_not_nodeOk h1]
      simp
    · rw [listHasBadNumber_not_listOk h2]
      simp
termination_by 3 * schemaListSize l + 1
decreasing_by
  · have := schemaSize_pos x
    simp [schemaListSize]
    omega
  · have := schemaSize_pos x
    simp [schemaListSize]
    omega

end

/-- C7: the validation pass recurses into nested children: whenever a node's
subtype is an Array whose own min_items/max_items checks pass, but somewhere
in the tree (through the homogeneous item, tuple items, object properties or
one_of members, at any depth) a Number subtype violates its numeric rules,
checking the whole tree returns an error instead of succeeding. -/
theorem c7_validation_recurses (ds : UncheckedDataSchema) (a : UncheckedArraySchema)
    (hsub : ds.subtype = some (.array a))
    (hown : ownOk ds.subtype = true)
    (hbad : hasBadNumber ds = true) :
    ∃ e, ds.check = .error e := by
  have hno : nodeOk ds = false := hasBadNumber_not_nodeOk hbad
  cases hc : ds.check with
  | ok u =>
    cases u
    have := (check_ok_iff ds).mp hc
    rw [this] at hno
    simp at hno
  | error e => exact ⟨e, rfl⟩

/-- Witness for C7. -/
theorem c7_validation_recurses_witness :
    ∃ e, (UncheckedDataSchema.mk none none none none none none none none none none
        false false none
        (some (.array (.mk
          (some (.elem (.mk none none none none none none none none none none
            false false none
            (some (.number ⟨none, none, some (.val 0)⟩)))))
          (some 1) (some 2))))).check = .error e :=
  c7_validation_recurses _ _ rfl (by decide)
    (by simp +decide [hasBadNumber, subHasBadNumber, numberBadHere, listHasBadNumber,
      stepChildren, arrayChildren, ownOk, subtypeStep, numberChecks, multipleOfCheck,
      F64.fle, UncheckedDataSchema.subtype, UncheckedDataSchema.one_of,
      Except.bind, Except.map])

/-- Satisfaction predicate for the checked conversion with respect to a list
of language-tag keys: the computation returns InvalidLanguageTag on the first
key failing the external check, and succeeds when every key passes. -/
def TagSat (tagOk : String → Bool) (tags : List String) {α : Type}
    (e : Except Error α) : Prop :=
  match tags.find? (fun k => !tagOk k) with
  | some k => e = .error (.invalidLanguageTag k)
  | none => ∃ a, e = .ok a

theorem tagSat_ok {tagOk : String → Bool} {α : Type} (a : α) :
    TagSat tagOk [] (.ok a) := ⟨a, rfl⟩

theorem tagSat_bind {tagOk : String → Bool} {t1 t2 : List String} {α β : Type}
    {e : Except Error α} {f : α → Except Error β}
    (h1 : TagSat tagOk t1 e) (h2 : ∀ a, e = .ok a → TagSat tagOk t2 (f a)) :
    TagSat tagOk (t1 ++ t2) (e.bind f) := by
  unfold TagSat at h1 ⊢
  rw [List.find?_append]
  cases hf : t1.find? (fun k => !tagOk k) with
  | some k =>
    rw [hf] at h1
    show (match ((some k).or (t2.find? fun k => !tagOk k) : Option String) with
      | some k => e.bind f = .error (.invalidLanguageTag k)
      | none => ∃ a, e.bind f = .ok a)
    rw [h1]
    rfl
  | none =>
    rw [hf] at h1
    obtain ⟨a, ha⟩ := h1
    show (match ((none : Option String).or (t2.find? fun k => !tagOk k)) with
      | some k => e.bind f = .error (.invalidLanguageTag k)
      | none => ∃ a, e.bind f = .ok a)
    have h3 := h2 a ha
    unfold TagSat at h3
    cases hg : t2.find? (fun k => !tagOk k) with
    | some k =>
      rw [hg] at h3
      rw [ha]
      exact h3
    | none =>
      rw [hg] at h3
      obtain ⟨b, hb⟩ := h3
      exact ⟨b, by rw [ha]; exact hb⟩

theorem tagSat_map {tagOk : String → Bool} {t : List String} {α β : Type}
    {e : Except Error α} (g : α → β)
    (h : TagSat tagOk t e) : TagSat tagOk t (e.map g) := by
  unfold TagSat at h ⊢
  cases hf : t.find? (fun k => !tagOk k) with
  | some k =>
    rw [hf] at h
    rw [h]
    rfl
  | none =>
    rw [hf] at h
    obtain ⟨a, ha⟩ := h
    exact ⟨g a, by rw [ha]; rfl⟩

theorem tagSat_bind_pure {tagOk : String → Bool} {t : List String} {α β : Type}
    {e : Except Error α} (g : α → β)
    (h : TagSat tagOk t e) : TagSat tagOk t (e.bind fun a => .ok (g a)) := by
  unfold TagSat at h ⊢
  cases hf : t.find? (fun k => !tagOk k) with
  | some k =>
    rw [hf] at h
    rw [h]
    rfl
  | none =>
    rw [hf] at h
    obtain ⟨a, ha⟩ := h
    exact ⟨g a, by rw [ha]; rfl⟩

theorem buildML_sat (tagOk : String → Bool) (values : List (String × String)) :
    TagSat tagOk (values.map Prod.fst) (buildMultiLanguage tagOk values) := by
  induction values with
  | nil => exact tagSat_ok []
  | cons kv rest ih =>
    obtain ⟨k, v⟩ := kv
    by_cases hk : tagOk k = true
    · unfold TagSat at ih ⊢
      simp only [List.map_cons]
      rw [List.find?_cons_of_neg _ (by simp [hk])]
      cases hf : (rest.map Prod.fst).find? (fun s => !tagOk s) with
      | some k2 =>
        rw [hf] at ih
        simp [buildMultiLanguage, hk, ih, Except.map]
      | none =>
        rw [hf] at ih
        obtain ⟨a, ha⟩ := ih
        exact ⟨(k, v) :: a, by simp [buildMultiLanguage, hk, ha, Except.map]⟩
    · unfold TagSat
      simp only [List.map_cons]
      rw [List.find?_cons_of_pos _ (by simp [hk])]
      simp [buildMultiLanguage, hk]

theorem buildOptML_sat (tagOk : String → Bool) (o : Option MultiLanguageBuilder) :
    TagSat tagOk (mlTags o) (buildOptML tagOk o) := by
  match o with
  | none => exact tagSat_ok none
  | some b => exact tagSat_map some (buildML_sat tagOk b.values)

mutual

theorem tryFromDataSchema_sat (tagOk : String → Bool) (ds : UncheckedDataSchema) :
    TagSat tagOk (schemaTags ds) (tryFromDataSchema tagOk ds) := by
  match ds with
  | .mk a t ti d de c df u oo en ro wo f st =>
    simp only [tryFromDataSchema, schemaTags]
    apply tagSat_bind (buildOptML_sat tagOk ti)
    intro x1 _
    apply tagSat_bind (buildOptML_sat tagOk de)
    intro x2 _
    apply tagSat_bind (tryFromOptOneOf_sat tagOk oo)
    intro x3 _
    exact tagSat_bind_pure _ (tryFromOptSubtype_sat tagOk st)
termination_by 5 * schemaSize ds
decreasing_by
  · simp [schemaSize]
    omega
  · simp [schemaSize]
    omega

theorem tryFromOptOneOf_sat (tagOk : String → Bool)
    (oo : Option (List UncheckedDataSchema)) :
    TagSat tagOk (oneOfTags oo) (tryFromOptOneOf tagOk oo) := by
  match oo with
  | none => exact tagSat_ok none
  | some l =>
    simp only [tryFromOptOneOf, oneOfTags]
    exact tagSat_map some (tryFromSchemaList_sat tagOk l)
termination_by 5 * schemaListOptSize oo + 4
decreasing_by
  simp [schemaListOptSize]

theorem tryFromSchemaList_sat (tagOk : String → Bool)
    (l : List UncheckedDataSchema) :
    TagSat tagOk (listTags l) (tryFromSchemaList tagOk l) := by
  match l with
  | [] => exact tagSat_ok []
  | x :: xs =>
    simp only [tryFromSchemaList, listTags]
    apply tagSat_bind (tryFromDataSchema_sat tagOk x)
    intro x2 _
    exact tagSat_map _ (tryFromSchemaList_sat tagOk xs)
termination_by 5 * schemaListSize l + 3
decreasing_by
  · have := schemaSize_pos x
    simp [schemaListSize]
    omega
  · have := schemaSize_pos x
    simp [schemaListSize]
    omega

theorem tryFromOptSubtype_sat (tagOk : String → Bool)
    (st : Option UncheckedDataSchemaSubtype) :
    TagSat tagOk (subOptTags st) (tryFromOptSubtype tagOk st) := by
  match st with
  | none => exact tagSat_ok none
  | some s =>
    simp only [tryFromOptSubtype, subOptTags]
    exact tagSat_map some (tryFromSubtype_sat tagOk s)
termination_by 5 * subOptSize st + 4
decreasing_by
  simp [subOptSize]

theorem tryFromSubtype_sat (tagOk : String → Bool)
    (s : UncheckedDataSchemaSubtype) :
    TagSat tagOk (subTags s) (tryFromSubtype tagOk s) := by
  match s with
  | .array a =>
    simp only [tryFromSubtype, subTags]
    exact tagSat_map _ (tryFromArray_sat tagOk a)
  | .boolean => exact tagSat_ok _
  | .number n => exact tagSat_ok _
  | .integer i => exact tagSat_ok _
  | .object o =>
    simp only [tryFromSubtype, subTags]
    exact tagSat_map _ (tryFromObject_sat tagOk o)
  | .string s2 => exact tagSat_ok _
  | .null => exact tagSat_ok _
termination_by 5 * subSize s + 3
decreasing_by
  · rw [subSize_array]
    omega
  · rw [subSize_object]
    omega

theorem tryFromArray_sat (tagOk : String → Bool) (a : UncheckedArraySchema) :
    TagSat tagOk (arrayTags a) (tryFromArray tagOk a) := by
  match a with
  | .mk items mi ma =>
    simp only [tryFromArray, arrayTags]
    exact tagSat_map _ (tryFromOptItems_sat tagOk items)
termination_by 5 * arraySchemaSize a + 2
decreasing_by
  simp [arraySchemaSize]
  omega

theorem tryFromOptItems_sat (tagOk : String → Bool)
    (items : Option (BoxedElemOrVec UncheckedDataSchema)) :
    TagSat tagOk (itemsTags items) (tryFromOptItems tagOk items) := by
  match items with
  | none => exact tagSat_ok none
  | some (.elem item) =>
    simp only [tryFromOptItems, itemsTags]
    exact tagSat_map _ (tryFromDataSchema_sat tagOk item)
  | some (.vec its) =>
    simp only [tryFromOptItems, itemsTags]
    exact tagSat_map _ (tryFromSchemaList_sat tagOk its)
termination_by 5 * itemsOptSize items + 1
decreasing_by
  · simp [itemsOptSize]
    omega
  · simp [itemsOptSize]
    omega

theorem tryFromObject_sat (tagOk : String → Bool) (o : UncheckedObjectSchema) :
    TagSat tagOk (objectTags o) (tryFromObject tagOk o) := by
  match o with
  | .mk props req =>
    simp only [tryFromObject, objectTags]
    exact tagSat_map _ (tryFromOptProps_sat tagOk props)
termination_by 5 * objSchemaSize o + 2
decreasing_by
  simp [objSchemaSize]

theorem tryFromOptProps_sat (tagOk : String → Bool)
    (props : Option (List (String × UncheckedDataSchema))) :
    TagSat tagOk (propsOptTags props) (tryFromOptProps tagOk props) := by
  match props with
  | none => exact tagSat_ok none
  | some ps =>
    simp only [tryFromOptProps, propsOptTags]
    exact tagSat_map some (tryFromPropsList_sat tagOk ps)
termination_by 5 * propsOptSize props + 2
decreasing_by
  simp [propsOptSize]

theorem tryFromPropsList_sat (tagOk : String → Bool)
    (ps : List (String × UncheckedDataSchema)) :
    TagSat tagOk (propsTags ps) (tryFromPropsList tagOk ps) := by
  match ps with
  | [] => exact tagSat_ok []
  | (k, v) :: rest =>
    simp only [tryFromPropsList, propsTags]
    apply tagSat_bind (tryFromDataSchema_sat tagOk v)
    intro v2 _
    exact tagSat_map _ (tryFromPropsList_sat tagOk rest)
termination_by 5 * propsSize ps + 1
decreasing_by
  · have := schemaSize_pos v
    simp [propsSize]
    omega
  · have := schemaSize_pos v
    simp [propsSize]
    omega

end

/-- C1: the checked conversion of an unchecked schema tree runs no numeric
validation: it succeeds exactly when every key of every titles/descriptions
map anywhere in the tree passes the external language-tag check, whatever the
numeric fields contain, and otherwise it aborts with InvalidLanguageTag of
the first failing key in conversion order and produces no partial result. -/
theorem c1_conversion_language_tags (tagOk : String → Bool)
    (ds : UncheckedDataSchema) :
    ((∃ out, tryFromDataSchema tagOk ds = .ok out)
      ↔ (schemaTags ds).all tagOk = true)
    ∧ (∀ k, (schemaTags ds).find? (fun s => !tagOk s) = some k →
        tryFromDataSchema tagOk ds = .error (.invalidLanguageTag k)) := by
  have hsat := tryFromDataSchema_sat tagOk ds
  unfold TagSat at hsat
  constructor
  · constructor
    · rintro ⟨out, hout⟩
      cases hf : (schemaTags ds).find? (fun s => !tagOk s) with
      | some k =>
        rw [hf] at hsat
        rw [hout] at hsat
        simp at hsat
      | none =>
        rw [List.all_eq_true]
        intro x hx
        have := List.find?_eq_none.mp hf x hx
        simpa using this
    · intro hall
      cases hf : (schemaTags ds).find? (fun s => !tagOk s) with
      | some k =>
        have hk := List.find?_some hf
        have hmem := List.mem_of_find?_eq_some hf
        rw [List.all_eq_true] at hall
        have hx := hall k hmem
        rw [hx] at hk
        simp at hk
      | none =>
        rw [hf] at hsat
        exact hsat
  · intro k hk
    rw [hk] at hsat
    exact hsat

/-- Witness for C1: a tree whose titles map holds the bad key "zz" fails with
InvalidLanguageTag "zz"; a tree with only the good key "en" converts
successfully even though its Number subtype has minimum 5 greater than
maximum 1 and multiple_of 0. -/
theorem c1_conversion_language_tags_witness :
    tryFromDataSchema (fun s => s == "en")
      (.mk none none (some ⟨[("en", "a"), ("zz", "b")]⟩) none none none none none
        none none false false none none)
      = .error (.invalidLanguageTag "zz")
    ∧ (∃ out, tryFromDataSchema (fun s => s == "en")
        (.mk none none (some ⟨[("en", "a")]⟩) none none none none none none none
          false false none
          (some (.number ⟨some (.inclusive (.val 5)), some (.inclusive (.val 1)),
            some (.val 0)⟩)))
        = .ok out) :=
  ⟨(c1_conversion_language_tags _ _).2 "zz" rfl,
   (c1_conversion_language_tags _ _).1.mpr rfl⟩
